import Mathlib

/-!
# Verification of the construction-PDF extraction core

This development embeds, in Lean, the core of the `pdf-extractor` repository:
the `ConstructionParser` (line classifier, item accumulator, table normalizer)
from `extractor/parsers/construction.py` and the hybrid merge / validation
logic of `ConstructionExtractionStrategy` from
`extractor/services/extraction_service.py`.

Python regular expressions are embedded via a small backtracking matcher
(`Rx.mtch`) over an explicit pattern AST; every pattern of the source is
transcribed literally (the original pattern text is cited in a comment next
to each transcription).  Python string primitives (`strip`, `split`,
`upper`, `lower`, `title`, substring membership, truthiness) are modelled
by executable functions with Python's semantics on the ASCII range (plus
the diameter glyph `ø`, the only non-ASCII character appearing in the data).
-/

namespace PyStr

/-- Python whitespace (`str.strip`, `str.split`, and `\s` in `re`),
restricted to the characters that can occur in the modelled data. -/
def isSpace (c : Char) : Bool :=
  c = ' ' || c = '\t' || c = '\n' || c = '\x0d' || c = '\x0b' || c = '\x0c'

def isDigit (c : Char) : Bool := '0' ≤ c && c ≤ '9'

def isAsciiUpper (c : Char) : Bool := 'A' ≤ c && c ≤ 'Z'

def isAsciiLower (c : Char) : Bool := 'a' ≤ c && c ≤ 'z'

def isAlpha (c : Char) : Bool := isAsciiUpper c || isAsciiLower c || c = 'ø' || c = 'Ø'

/-- Python `\w`: word characters.  Unicode letters are restricted to the
only non-ASCII letter occurring in the modelled data (`ø`/`Ø`). -/
def isWord (c : Char) : Bool := isAlpha c || isDigit c || c = '_'

def toUpper (c : Char) : Char :=
  if isAsciiLower c then Char.ofNat (c.toNat - 32) else c

def toLower (c : Char) : Char :=
  if isAsciiUpper c then Char.ofNat (c.toNat + 32) else c

def upper (s : String) : String := ⟨s.data.map toUpper⟩

def lower (s : String) : String := ⟨s.data.map toLower⟩

/-- `str.strip()` on a character list. -/
def stripL (cs : List Char) : List Char :=
  ((cs.dropWhile isSpace).reverse.dropWhile isSpace).reverse

def strip (s : String) : String := ⟨stripL s.data⟩

/-- `str.split()` (whitespace split, no empty fields); the accumulator
holds the current word reversed. -/
def splitWsAux : List Char → List Char → List (List Char)
  | [], acc => if acc.isEmpty then [] else [acc.reverse]
  | c :: cs, acc =>
    if isSpace c then
      if acc.isEmpty then splitWsAux cs [] else acc.reverse :: splitWsAux cs []
    else splitWsAux cs (c :: acc)

def splitWsL (cs : List Char) : List (List Char) := splitWsAux cs []

def splitWs (s : String) : List String := (splitWsL s.data).map String.mk

/-- `sep.join(xs)` (kernel-reducible replacement for `String.intercalate`). -/
def joinSep (sep : String) : List String → String
  | [] => ""
  | [x] => x
  | x :: xs => x ++ sep ++ joinSep sep xs

/-- `str.split('\n')` (kernel-reducible replacement for `String.splitOn`). -/
def splitNlAux : List Char → List Char → List String
  | [], acc => [⟨acc.reverse⟩]
  | c :: cs, acc =>
    if c = '\n' then String.mk acc.reverse :: splitNlAux cs []
    else splitNlAux cs (c :: acc)

def splitNl (s : String) : List String := splitNlAux s.data []

/-- substring containment (`needle in haystack` in Python). -/
def containsL (hay needle : List Char) : Bool :=
  match hay with
  | [] => needle.isEmpty
  | _ :: tl => needle.isPrefixOf hay || containsL tl needle

def contains (hay needle : String) : Bool := containsL hay.data needle.data

def startsWith (s pre : String) : Bool := pre.data.isPrefixOf s.data

def endsWith (s suf : String) : Bool := suf.data.reverse.isPrefixOf s.data.reverse

/-- `str.title()`: first letter of each run of cased characters uppercased,
the rest lowercased.  Only ASCII letters are cased in the modelled data. -/
def titleL : List Char → Bool → List Char
  | [], _ => []
  | c :: cs, prevCased =>
    if isAsciiUpper c || isAsciiLower c then
      (if prevCased then toLower c else toUpper c) :: titleL cs true
    else
      c :: titleL cs false

def title (s : String) : String := ⟨titleL s.data false⟩

/-- `int(s)` for a string of decimal digits (the only shapes the source
feeds to `int` after a successful regex capture). -/
def toNatD (s : String) : Nat :=
  s.data.foldl (fun a c => a * 10 + (c.toNat - '0'.toNat)) 0

/-- Python `str(n)` for an integer. -/
def reprInt (n : Int) : String :=
  if n < 0 then "-" ++ toString n.natAbs else toString n.natAbs

end PyStr

/-! ## A small backtracking regex matcher

The pattern AST covers exactly the constructs used by the source's
patterns: literals, character classes, concatenation, ordered alternation,
greedy/lazy counted repetition, capturing groups, anchors, word boundary,
negative lookahead and single-character negative lookbehind.  Matching is
leftmost, with Python's backtracking priority (alternatives tried in
order, greedy repetitions prefer longer, lazy prefer shorter). -/

namespace Rx

/-- One item of a character class. -/
inductive CI where
  | ch (c : Char)
  | rng (lo hi : Char)
  | dig        -- \d
  | spc        -- \s
  | wrd        -- \w
deriving Repr, DecidableEq

inductive Re where
  | eps
  | lit (c : Char)
  | cls (neg : Bool) (xs : List CI)
  | cat (a b : Re)
  | alt (a b : Re)
  | rep (mn : Nat) (mx : Option Nat) (lazy : Bool) (r : Re)
  | grp (i : Nat) (r : Re)
  | bos         -- ^
  | eos         -- $
  | wb          -- \b
  | nla (r : Re)        -- (?!r)
  | nlb (xs : List CI)  -- single-character negative lookbehind (?<!...)
deriving Repr

/-- Does character `c` match class item `it` (case-sensitively)? -/
def ciMatch (it : CI) (c : Char) : Bool :=
  match it with
  | .ch c' => c = c'
  | .rng lo hi => lo ≤ c && c ≤ hi
  | .dig => PyStr.isDigit c
  | .spc => PyStr.isSpace c
  | .wrd => PyStr.isWord c

/-- Class match, honouring `re.IGNORECASE` (`ci`): a character matches if
it, or one of its case variants, is in the class. -/
def clsMatch (ci : Bool) (neg : Bool) (xs : List CI) (c : Char) : Bool :=
  let base := xs.any (fun it => ciMatch it c) ||
    (ci && (xs.any (fun it => ciMatch it (PyStr.toLower c)) ||
            xs.any (fun it => ciMatch it (PyStr.toUpper c))))
  if neg then !base else base

def litMatch (ci : Bool) (p c : Char) : Bool :=
  if ci then PyStr.toLower p = PyStr.toLower c else p = c

/-- Matcher state: current position, remaining input, previous character
(for `\b` and lookbehind) and captures (half-open position pairs). -/
structure St where
  pos : Nat
  rest : List Char
  prev : Option Char
  caps : List (Option (Nat × Nat))
deriving Repr

def isWordO : Option Char → Bool
  | none => false
  | some c => PyStr.isWord c

def decMx : Option Nat → Option Nat
  | none => none
  | some n => some (n - 1)

/-- Bounded repetition driver.  `body` is the matcher of the repeated
sub-pattern in CPS form; `fuel` bounds the number of iterations (the
repetition bodies of every transcribed pattern consume at least one
character, so `input length + 1` iterations are always enough). -/
def repIter (body : St → (St → Option St) → Option St) (k : St → Option St) :
    Nat → Nat → Option Nat → Bool → St → Option St
  | 0, _, _, _, _ => none
  | fuel + 1, mn, mx, lz, st =>
    if lz then
      if mn = 0 then
        match k st with
        | some r => some r
        | none =>
          if mx = some 0 then none
          else body st (fun st' => repIter body k fuel 0 (decMx mx) lz st')
      else
        if mx = some 0 then none
        else body st (fun st' => repIter body k fuel (mn - 1) (decMx mx) lz st')
    else
      if mx = some 0 then (if mn = 0 then k st else none)
      else
        match body st (fun st' => repIter body k fuel (mn - 1) (decMx mx) lz st') with
        | some r => some r
        | none => if mn = 0 then k st else none

/-- CPS backtracking matcher, structurally recursive on the pattern. -/
def mtch (ci : Bool) : Re → St → (St → Option St) → Option St
  | .eps, st, k => k st
  | .lit c, st, k =>
    match st.rest with
    | [] => none
    | c' :: tl =>
      if litMatch ci c c' then
        k { pos := st.pos + 1, rest := tl, prev := some c', caps := st.caps }
      else none
  | .cls neg xs, st, k =>
    match st.rest with
    | [] => none
    | c' :: tl =>
      if clsMatch ci neg xs c' then
        k { pos := st.pos + 1, rest := tl, prev := some c', caps := st.caps }
      else none
  | .cat a b, st, k => mtch ci a st (fun st' => mtch ci b st' k)
  | .alt a b, st, k =>
    match mtch ci a st k with
    | some r => some r
    | none => mtch ci b st k
  | .rep mn mx lz r, st, k =>
    repIter (fun st' k' => mtch ci r st' k') k (st.rest.length + 1) mn mx lz st
  | .grp i r, st, k =>
    let s0 := st.pos
    mtch ci r st (fun st' =>
      k { st' with caps := st'.caps.set (i - 1) (some (s0, st'.pos)) })
  | .bos, st, k => if st.pos = 0 then k st else none
  | .eos, st, k => if st.rest.isEmpty then k st else none
  | .wb, st, k =>
    if (isWordO st.prev).xor (isWordO st.rest.head?) then k st else none
  | .nla r, st, k =>
    match mtch ci r st some with
    | some _ => none
    | none => k st
  | .nlb xs, st, k =>
    match st.prev with
    | none => k st
    | some c => if clsMatch ci false xs c then none else k st

/-- A compiled pattern: AST plus its number of capturing groups. -/
structure Pat where
  ng : Nat
  re : Re

/-- A successful match: span and captures. -/
structure Mtc where
  start : Nat
  stop : Nat
  caps : List (Option (Nat × Nat))
deriving Repr

def tryAt (ci : Bool) (p : Pat) (pos : Nat) (rest : List Char)
    (prev : Option Char) : Option Mtc :=
  (mtch ci p.re ⟨pos, rest, prev, List.replicate p.ng none⟩ some).map
    (fun st => ⟨pos, st.pos, st.caps⟩)

/-- `re.search`: leftmost match. -/
def searchFrom (ci : Bool) (p : Pat) : Nat → List Char → Option Char → Option Mtc
  | pos, [], prev =>
    tryAt ci p pos [] prev
  | pos, c :: tl, prev =>
    match tryAt ci p pos (c :: tl) prev with
    | some m => some m
    | none => searchFrom ci p (pos + 1) tl (some c)

def search (ci : Bool) (p : Pat) (s : List Char) : Option Mtc :=
  searchFrom ci p 0 s none

def searchB (ci : Bool) (p : Pat) (s : List Char) : Bool :=
  (search ci p s).isSome

/-- `re.match`: anchored at the start of the string. -/
def matchStart (ci : Bool) (p : Pat) (s : List Char) : Option Mtc :=
  tryAt ci p 0 s none

def matchStartB (ci : Bool) (p : Pat) (s : List Char) : Bool :=
  (matchStart ci p s).isSome

/-- advance `n` characters from a state (for `finditer`). -/
def advance : Nat → Nat → List Char → Option Char → Nat × List Char × Option Char
  | 0, pos, rest, prev => (pos, rest, prev)
  | n + 1, pos, rest, prev =>
    match rest with
    | [] => (pos, rest, prev)
    | c :: tl => advance n (pos + 1) tl (some c)

/-- `re.finditer`: all successive non-overlapping matches. -/
def findAllFrom (ci : Bool) (p : Pat) :
    Nat → Nat → List Char → Option Char → List Mtc
  | 0, _, _, _ => []
  | fuel + 1, pos, rest, prev =>
    match searchFrom ci p pos rest prev with
    | none => []
    | some m =>
      let nxt := if m.stop = m.start then m.stop + 1 else m.stop
      let (pos', rest', prev') := advance (nxt - pos) pos rest prev
      m :: findAllFrom ci p fuel pos' rest' prev'

def findAll (ci : Bool) (p : Pat) (s : List Char) : List Mtc :=
  findAllFrom ci p (s.length + 2) 0 s none

/-- `match.group(0)` -/
def grp0 (s : List Char) (m : Mtc) : String :=
  ⟨(s.drop m.start).take (m.stop - m.start)⟩

/-- `match.group(i)` for `i ≥ 1` (`none` if the group did not participate). -/
def grpGet (s : List Char) (m : Mtc) (i : Nat) : Option String :=
  match m.caps.getD (i - 1) none with
  | none => none
  | some (a, b) => some ⟨(s.drop a).take (b - a)⟩

/-- `match.groups()` -/
def groups (s : List Char) (m : Mtc) (ng : Nat) : List (Option String) :=
  (List.range ng).map (fun i => grpGet s m (i + 1))

/-! Combinators used to transcribe the source's pattern strings. -/

def seqL (xs : List Re) : Re := xs.foldr .cat .eps

def altL : List Re → Re
  | [] => .cls false []      -- matches nothing
  | [x] => x
  | x :: xs => .alt x (altL xs)

/-- literal string -/
def lits (s : String) : Re := seqL (s.data.map .lit)

def star (r : Re) : Re := .rep 0 none false r
def plus (r : Re) : Re := .rep 1 none false r
/-- lazy `+?` -/
def plusL (r : Re) : Re := .rep 1 none true r
/-- `?` -/
def opt (r : Re) : Re := .rep 0 (some 1) false r

def dC : Re := .cls false [.dig]            -- \d
def dP : Re := plus dC                      -- \d+
def sC : Re := .cls false [.spc]            -- \s
def sStar : Re := star sC                   -- \s*
def sPlus : Re := plus sC                   -- \s+
def AZ : CI := .rng 'A' 'Z'
def az : CI := .rng 'a' 'z'
def n09 : CI := .rng '0' '9'
def quoteC : Re := .cls false [.ch '"', .ch '\'']    -- ["\']
def dashC : Re := .cls false [.ch '-', .ch '–']      -- [-–]
def colSp : Re := .cls false [.ch ':', .spc]         -- [:\s]
def dashDot : Re := .cls false [.ch '-', .ch '.']    -- [-\.]
def frac : Re := seqL [dP, .lit '/', dP]             -- \d+\/\d+
def decNum : Re := seqL [dP, .lit '.', dP]           -- \d+\.\d+
def decOpt : Re := .cat dP (opt (.cat (.lit '.') dP))  -- \d+(?:\.\d+)?

/-- words separated by `\s+` (e.g. `use\s+in\s+whole`). -/
def phr : List String → Re
  | [] => .eps
  | [w] => lits w
  | w :: ws => .cat (lits w) (.cat sPlus (phr ws))

/-- `\b(w1|w2|...)\b` with a single capturing group. -/
def kwGrp (xs : List Re) : Pat := ⟨1, seqL [.wb, .grp 1 (altL xs), .wb]⟩

end Rx

/-! ## Pattern catalog of `ConstructionParser.__init__`

Each definition transcribes one Python pattern string; the original text
is quoted in the comment above it. -/

namespace CP

open Rx

-- r'\b(prohibited|copyright|reserved|confidential|proprietary)\b'
def ex1 : Pat := kwGrp [lits "prohibited", lits "copyright", lits "reserved",
  lits "confidential", lits "proprietary"]

-- r'\b(use\s+in\s+whole|in\s+part|strictly\s+prohibited)\b'
def ex2 : Pat := kwGrp [phr ["use", "in", "whole"], phr ["in", "part"],
  phr ["strictly", "prohibited"]]

-- r'\b(all\s+rights\s+reserved|page\s+\d+|document\s+control)\b'
def ex3 : Pat := kwGrp [phr ["all", "rights", "reserved"],
  seqL [lits "page", sPlus, dP], phr ["document", "control"]]

-- r'\b(revision|date|prepared\s+by|approved\s+by)\b'
def ex4 : Pat := kwGrp [lits "revision", lits "date", phr ["prepared", "by"],
  phr ["approved", "by"]]

-- r'^[A-Z\s]{20,}$'
def ex5 : Pat := ⟨0, seqL [.bos, .rep 20 none false (.cls false [AZ, .spc]), .eos]⟩

-- r'^\d+$'
def ex6 : Pat := ⟨0, seqL [.bos, dP, .eos]⟩

-- r'^[^\w\s]+$'
def ex7 : Pat := ⟨0, seqL [.bos, plus (.cls true [.wrd, .spc]), .eos]⟩

-- r'^\s*(up\s+to|see\s+|refer\s+to|see\s+page|refer\s+page|see\s+drawing|refer\s+drawing|see\s+spec|refer\s+spec)\b'
def ex8 : Pat := ⟨1, seqL [.bos, sStar, .grp 1 (altL
  [phr ["up", "to"], .cat (lits "see") sPlus, phr ["refer", "to"],
   phr ["see", "page"], phr ["refer", "page"], phr ["see", "drawing"],
   phr ["refer", "drawing"], phr ["see", "spec"], phr ["refer", "spec"]]), .wb]⟩

-- r'^\s*(note:|notice:|warning:|caution:)\b'
def ex9 : Pat := ⟨1, seqL [.bos, sStar, .grp 1 (altL
  [lits "note:", lits "notice:", lits "warning:", lits "caution:"]), .wb]⟩

-- r'^\s*(see|refer|use|install|mount|connect)\s+[A-Z0-9\-]+'
def ex10 : Pat := ⟨1, seqL [.bos, sStar, .grp 1 (altL
  [lits "see", lits "refer", lits "use", lits "install", lits "mount",
   lits "connect"]), sPlus, plus (.cls false [AZ, n09, .ch '-'])]⟩

def exclude_patterns : List Pat := [ex1, ex2, ex3, ex4, ex5, ex6, ex7, ex8, ex9, ex10]

def instruction_phrases : List String :=
  ["up to", "see", "refer to", "see page", "refer page", "see drawing",
   "refer drawing", "see spec", "refer spec", "use", "install", "mount",
   "connect", "note:", "notice:"]

-- r'^\s*(up\s+to|see|refer|use|install|mount|connect|note|notice|warning)\s+'
def instrVerbs : Pat := ⟨1, seqL [.bos, sStar, .grp 1 (altL
  [phr ["up", "to"], lits "see", lits "refer", lits "use", lits "install",
   lits "mount", lits "connect", lits "note", lits "notice", lits "warning"]),
  sPlus]⟩

-- fixture patterns -----------------------------------------------------
-- r'\b(pipe|fitting|duct|conduit|fixture|valve|faucet|sink|toilet|shower|bathtub|drain|vent|elbow|tee|coupling|reducer|adapter|cap|plug|flange|gasket|hanger|bracket|mount)\b'
def f1 : Pat := kwGrp ([ "pipe", "fitting", "duct", "conduit", "fixture",
  "valve", "faucet", "sink", "toilet", "shower", "bathtub", "drain", "vent",
  "elbow", "tee", "coupling", "reducer", "adapter", "cap", "plug", "flange",
  "gasket", "hanger", "bracket", "mount"].map lits)

-- r'\b(pump|circulating\s+pump|booster\s+pump|centrifugal\s+pump|pump\s+package)\b'
def f2 : Pat := kwGrp [lits "pump", phr ["circulating", "pump"],
  phr ["booster", "pump"], phr ["centrifugal", "pump"], phr ["pump", "package"]]

-- r'\b(equipment|boiler|heater|tower|cooling\s+tower|tank|reservoir|vessel|chiller)\b'
def f3 : Pat := kwGrp [lits "equipment", lits "boiler", lits "heater",
  lits "tower", phr ["cooling", "tower"], lits "tank", lits "reservoir",
  lits "vessel", lits "chiller"]

-- r'\b(station|wash\s+station|eye\s+wash|safety\s+station|emergency\s+station)\b'
def f4 : Pat := kwGrp [lits "station", phr ["wash", "station"],
  phr ["eye", "wash"], phr ["safety", "station"], phr ["emergency", "station"]]

-- r'\b(connection|fixture\s+connection|piping\s+connection|cooling\s+connection)\b'
def f5 : Pat := kwGrp [lits "connection", phr ["fixture", "connection"],
  phr ["piping", "connection"], phr ["cooling", "connection"]]

-- r'\b(package|valve\s+package|equipment\s+package|fixture\s+package)\b'
def f6 : Pat := kwGrp [lits "package", phr ["valve", "package"],
  phr ["equipment", "package"], phr ["fixture", "package"]]

-- r'\b(shop\s+fixture|repair\s+shop|body\s+shop|paint\s+booth|booth\s+equipment)\b'
def f7 : Pat := kwGrp [phr ["shop", "fixture"], phr ["repair", "shop"],
  phr ["body", "shop"], phr ["paint", "booth"], phr ["booth", "equipment"]]

-- r'\b(fixtures|body\s+repair|paint\s+equipment|mechanical\s+equipment)\b'
def f8 : Pat := kwGrp [lits "fixtures", phr ["body", "repair"],
  phr ["paint", "equipment"], phr ["mechanical", "equipment"]]

-- r'\b(ABS|PVC|CPVC|PEX|copper|steel|stainless|galvanized|cast\s+iron|brass|bronze)\b'
def f9 : Pat := kwGrp [lits "ABS", lits "PVC", lits "CPVC", lits "PEX",
  lits "copper", lits "steel", lits "stainless", lits "galvanized",
  phr ["cast", "iron"], lits "brass", lits "bronze"]

-- r'\b(item|component|part|unit|assembly|system)\b'
def f10 : Pat := kwGrp [lits "item", lits "component", lits "part",
  lits "unit", lits "assembly", lits "system"]

def fixture_patterns : List Pat := [f1, f2, f3, f4, f5, f6, f7, f8, f9, f10]

-- r'\b([A-Z][A-Za-z\s]+?)\s*(?:' + re.escape(best_match) + r'|package|equipment|fixture|station|connection)'
def fullItemPat (esc : String) : Pat := ⟨1, seqL
  [.wb, .grp 1 (.cat (.cls false [AZ]) (plusL (.cls false [AZ, az, .spc]))),
   sStar, altL [lits esc, lits "package", lits "equipment", lits "fixture",
     lits "station", lits "connection"]]⟩

-- r'\b([A-Z][A-Za-z]+(?:\s+[A-Z][A-Za-z]+)+)'   (searched without flags)
def capPhrase : Pat := ⟨1, seqL [.wb, .grp 1 (seqL
  [.cls false [AZ], plus (.cls false [AZ, az]),
   plus (seqL [sPlus, .cls false [AZ], plus (.cls false [AZ, az])])])]⟩

-- quantity patterns ----------------------------------------------------
-- r'\b(?:qty|quantity|qty\.)[:\s]+(\d+(?:\.\d+)?)\b'
def q1 : Pat := ⟨1, seqL [.wb, altL [lits "qty", lits "quantity", lits "qty."],
  plus colSp, .grp 1 decOpt, .wb]⟩

-- r'\b(?:qty|quantity)[:\s]+(\d+(?:\.\d+)?)\s*(?:ea|each|pcs|pieces|unit|units)?\b'
def q2 : Pat := ⟨1, seqL [.wb, altL [lits "qty", lits "quantity"], plus colSp,
  .grp 1 decOpt, sStar, opt (altL [lits "ea", lits "each", lits "pcs",
    lits "pieces", lits "unit", lits "units"]), .wb]⟩

-- r'\b(\d+)\s*(?:ea|each|pcs|pieces|pc|unit|units)\b'
def q3 : Pat := ⟨1, seqL [.wb, .grp 1 dP, sStar, altL [lits "ea", lits "each",
  lits "pcs", lits "pieces", lits "pc", lits "unit", lits "units"], .wb]⟩

-- r'\b(\d+)\s*(?:lf|linear feet|ft|feet|sq ft|sq\.?\s*ft\.?|square feet)\b'
def q4 : Pat := ⟨1, seqL [.wb, .grp 1 dP, sStar, altL [lits "lf",
  lits "linear feet", lits "ft", lits "feet", lits "sq ft",
  seqL [lits "sq", opt (.lit '.'), sStar, lits "ft", opt (.lit '.')],
  lits "square feet"], .wb]⟩

-- r'(?<!-)(?<![A-Z])\b(\d+\.\d+)(?:\s*,\s*\d+(?:\.\d+)?)*\b(?![-A-Z])'
def q5 : Pat := ⟨1, seqL [.nlb [.ch '-'], .nlb [AZ], .wb, .grp 1 decNum,
  star (seqL [sStar, .lit ',', sStar, decOpt]), .wb,
  .nla (.cls false [.ch '-', AZ])]⟩

-- r'\((\d+)\)(?:\s|$)'
def q6 : Pat := ⟨1, seqL [.lit '(', .grp 1 dP, .lit ')', .alt sC .eos]⟩

-- r'\b[A-Z][A-Za-z\s]+\s*\((\d+)\)'
def q7 : Pat := ⟨1, seqL [.wb, .cls false [AZ], plus (.cls false [AZ, az, .spc]),
  sStar, .lit '(', .grp 1 dP, .lit ')']⟩

-- r'(?:^|\s|,|:)\s*(\d{1,3})\s*(?:ea|each|pcs|pieces|qty|quantity|unit|units|$)'
def q8 : Pat := ⟨1, seqL [altL [.bos, sC, .lit ',', .lit ':'], sStar,
  .grp 1 (.rep 1 (some 3) false dC), sStar,
  altL [lits "ea", lits "each", lits "pcs", lits "pieces", lits "qty",
    lits "quantity", lits "unit", lits "units", .eos]]⟩

def quantity_patterns : List Pat := [q1, q2, q3, q4, q5, q6, q7, q8]

-- patterns used inside the quantity step:
-- r'[A-Z]{2,}-\d+'
def mCtx1 : Pat := ⟨0, seqL [.rep 2 none false (.cls false [AZ]), .lit '-', dP]⟩
-- r'[A-Z]{1,3}\d{2,}'
def mCtx2 : Pat := ⟨0, seqL [.rep 1 (some 3) false (.cls false [AZ]),
  .rep 2 none false dC]⟩
def model_patterns_in_line : List Pat := [mCtx1, mCtx2]
-- r'\b(qty|quantity)[:\s]*\d+\.\d+'
def qtyLbl : Pat := ⟨1, seqL [.wb, .grp 1 (altL [lits "qty", lits "quantity"]),
  star colSp, decNum]⟩
-- r'\d+\s*["\']|OM-|MAU-|CH\d+|model|part\s*#'
def specCtx : Pat := ⟨0, altL [seqL [dP, sStar, quoteC], lits "OM-",
  lits "MAU-", .cat (lits "CH") dP, lits "model",
  seqL [lits "part", sStar, .lit '#']]⟩

-- model patterns -------------------------------------------------------
-- r'\b(model|part\s*#|part\s*number|pn|sku|cat\s*#|catalog\s*#|item\s*#)[:\s]+([A-Z0-9\-\.]+)'
def p1 : Pat := ⟨2, seqL [.wb, .grp 1 (altL [lits "model",
  seqL [lits "part", sStar, .lit '#'], seqL [lits "part", sStar, lits "number"],
  lits "pn", lits "sku", seqL [lits "cat", sStar, .lit '#'],
  seqL [lits "catalog", sStar, .lit '#'], seqL [lits "item", sStar, .lit '#']]),
  plus colSp, .grp 2 (plus (.cls false [AZ, n09, .ch '-', .ch '.']))]⟩

-- r'\b([A-Z]{2,}-\d+[A-Z0-9\-]*)\b'
def p2 : Pat := ⟨1, seqL [.wb, .grp 1 (seqL [.rep 2 none false (.cls false [AZ]),
  .lit '-', dP, star (.cls false [AZ, n09, .ch '-'])]), .wb]⟩

-- r'\b([A-Z]{1,3}\d{2,}[A-Z0-9]*)\b'
def p3 : Pat := ⟨1, seqL [.wb, .grp 1 (seqL [.rep 1 (some 3) false (.cls false [AZ]),
  .rep 2 none false dC, star (.cls false [AZ, n09])]), .wb]⟩

-- r'\b([A-Z]{2,}\d+[A-Z0-9])\b'
def p4 : Pat := ⟨1, seqL [.wb, .grp 1 (seqL [.rep 2 none false (.cls false [AZ]),
  dP, .cls false [AZ, n09]]), .wb]⟩

def model_patterns : List Pat := [p1, p2, p3, p4]

-- r'\b(model|part|pn|sku|cat|item\s*#)'
def modelLbl : Pat := ⟨1, seqL [.wb, .grp 1 (altL [lits "model", lits "part",
  lits "pn", lits "sku", lits "cat", seqL [lits "item", sStar, .lit '#']])]⟩

-- r'^[A-Z]\d+$'   (matched without flags)
def shortCode : Pat := ⟨0, seqL [.bos, .cls false [AZ], dP, .eos]⟩
-- r'[A-Z]'   (searched without flags)
def upperOne : Pat := ⟨0, .cls false [AZ]⟩
-- r'\d'
def digitOne : Pat := ⟨0, dC⟩
-- r'^\d+$'
def pureDigits : Pat := ⟨0, seqL [.bos, dP, .eos]⟩

def legal_words : List String :=
  ["PROHIBITED", "COPYRIGHT", "RESERVED", "CONFIDENTIAL", "USE IN"]

-- dimension patterns ---------------------------------------------------
-- (\d+[\/\.]\d+|\d+(?:\.\d+)?)
def dimNum : Re := altL [seqL [dP, .cls false [.ch '/', .ch '.'], dP], decOpt]

-- r'\b(\d+)\s*["\']\s*[-–]\s*(\d+)\s*(\d+\/\d+)\s*["\']'
def d1 : Pat := ⟨3, seqL [.wb, .grp 1 dP, sStar, quoteC, sStar, dashC, sStar,
  .grp 2 dP, sStar, .grp 3 frac, sStar, quoteC]⟩
-- r'\b(\d+)\s*["\']\s*[-–]\s*(\d+)\s*["\']'
def d2 : Pat := ⟨2, seqL [.wb, .grp 1 dP, sStar, quoteC, sStar, dashC, sStar,
  .grp 2 dP, sStar, quoteC]⟩
-- r'\b(\d+)\s*["\']\s+(\d+)\s*(\d+\/\d+)\s*["\']'
def d3 : Pat := ⟨3, seqL [.wb, .grp 1 dP, sStar, quoteC, sPlus, .grp 2 dP,
  sStar, .grp 3 frac, sStar, quoteC]⟩
-- r'\b(\d+)\s*["\']\s+(\d+)\s*["\']'
def d4 : Pat := ⟨2, seqL [.wb, .grp 1 dP, sStar, quoteC, sPlus, .grp 2 dP,
  sStar, quoteC]⟩
-- r'\b(\d+)\s*["\']\s*[-–]\s*(\d+)\s*(\d+\/\d+)\b'
def d5 : Pat := ⟨3, seqL [.wb, .grp 1 dP, sStar, quoteC, sStar, dashC, sStar,
  .grp 2 dP, sStar, .grp 3 frac, .wb]⟩
-- r'\b(\d+)\s*["\']\s*[-–]?\s*(\d+)\s*(\d+\/\d+)\s*["\']?\b'
def d6 : Pat := ⟨3, seqL [.wb, .grp 1 dP, sStar, quoteC, sStar, opt dashC, sStar,
  .grp 2 dP, sStar, .grp 3 frac, sStar, opt quoteC, .wb]⟩
-- r'\b(L)\s*["\']?\s*x\s*(W)\s*["\']?\s*x\s*(H)\s*["\']?\b'  (L, W, H = dimNum)
def d7 : Pat := ⟨3, seqL [.wb, .grp 1 dimNum, sStar, opt quoteC, sStar, .lit 'x',
  sStar, .grp 2 dimNum, sStar, opt quoteC, sStar, .lit 'x', sStar, .grp 3 dimNum,
  sStar, opt quoteC, .wb]⟩
-- r'\b(L)\s*["\']?\s*x\s*(W)\s*["\']?\b'
def d8 : Pat := ⟨2, seqL [.wb, .grp 1 dimNum, sStar, opt quoteC, sStar, .lit 'x',
  sStar, .grp 2 dimNum, sStar, opt quoteC, .wb]⟩
-- r'\b(L)\s*["\']\s*(?:diameter|dia|OD|ID|D|DIA)\b'
def d9 : Pat := ⟨1, seqL [.wb, .grp 1 dimNum, sStar, quoteC, sStar,
  altL [lits "diameter", lits "dia", lits "OD", lits "ID", lits "D", lits "DIA"],
  .wb]⟩
-- r'\b(L)\s*inch(es)?\s*(?:diameter|dia|OD|ID)\b'
def d10 : Pat := ⟨2, seqL [.wb, .grp 1 dimNum, sStar, lits "inch",
  opt (.grp 2 (lits "es")), sStar,
  altL [lits "diameter", lits "dia", lits "OD", lits "ID"], .wb]⟩
-- r'\b(?:diameter|dia|OD|ID|D|DIA)[\s:]+(L)\s*["\']?\b'
def d11 : Pat := ⟨1, seqL [.wb, altL [lits "diameter", lits "dia", lits "OD",
  lits "ID", lits "D", lits "DIA"], plus colSp, .grp 1 dimNum, sStar, opt quoteC,
  .wb]⟩
-- r'\b(\d+(?:\.\d+)?)\s*["\'](?!\s*x)(?![A-Z0-9])'
def d12 : Pat := ⟨1, seqL [.wb, .grp 1 decOpt, sStar, quoteC,
  .nla (.cat sStar (.lit 'x')), .nla (.cls false [AZ, n09])]⟩
-- r'\b(\d+(?:\.\d+)?)\s*(?:inch|inches|in|ft|feet|cm|mm)\b'
def d13 : Pat := ⟨1, seqL [.wb, .grp 1 decOpt, sStar, altL [lits "inch",
  lits "inches", lits "in", lits "ft", lits "feet", lits "cm", lits "mm"], .wb]⟩
-- r'\b(\d+\s*[\/\-]\s*\d+\/\d+)\s*["\']\b'
def d14 : Pat := ⟨1, seqL [.wb, .grp 1 (seqL [dP, sStar,
  .cls false [.ch '/', .ch '-'], sStar, frac]), sStar, quoteC, .wb]⟩
-- r'(\d+\s+\d+\/\d+\s*["\']?\s*ø)'
def d15 : Pat := ⟨1, .grp 1 (seqL [dP, sPlus, frac, sStar, opt quoteC, sStar,
  .lit 'ø'])⟩
-- r'(\d+[- ]\d+\/\d+\s*["\']?\s*ø)'
def d16 : Pat := ⟨1, .grp 1 (seqL [dP, .cls false [.ch '-', .ch ' '], frac,
  sStar, opt quoteC, sStar, .lit 'ø'])⟩
-- r'(\d+\/\d+\s*["\']?\s*ø)'
def d17 : Pat := ⟨1, .grp 1 (seqL [frac, sStar, opt quoteC, sStar, .lit 'ø'])⟩
-- r'(\d+\s*["\']?\s*ø)'
def d18 : Pat := ⟨1, .grp 1 (seqL [dP, sStar, opt quoteC, sStar, .lit 'ø'])⟩
-- r'(?:diameter|dia|OD|ID|size|dimension)[:\s]+(\d+\/\d+)\s*["\']?'
def d19 : Pat := ⟨1, seqL [altL [lits "diameter", lits "dia", lits "OD",
  lits "ID", lits "size", lits "dimension"], plus colSp, .grp 1 frac, sStar,
  opt quoteC]⟩
-- r'(?:\d+\s+)?(\d+\/\d+)\s*["\']\s*(?:diameter|dia|OD|ID|inch|inches)'
def d20 : Pat := ⟨1, seqL [opt (.cat dP sPlus), .grp 1 frac, sStar, quoteC,
  sStar, altL [lits "diameter", lits "dia", lits "OD", lits "ID", lits "inch",
    lits "inches"]]⟩
-- r'\b(\d+(?:\.\d+)?)\s*(?:mm|cm|m)\s*x\s*(\d+(?:\.\d+)?)\s*(?:mm|cm|m)\b'
def d21 : Pat := ⟨2, seqL [.wb, .grp 1 decOpt, sStar, altL [lits "mm",
  lits "cm", lits "m"], sStar, .lit 'x', sStar, .grp 2 decOpt, sStar,
  altL [lits "mm", lits "cm", lits "m"], .wb]⟩

def dimension_patterns : List Pat :=
  [d1, d2, d3, d4, d5, d6, d7, d8, d9, d10, d11, d12, d13, d14, d15, d16,
   d17, d18, d19, d20, d21]

-- full-dimension patterns tried inside the dimension step -------------
-- fd1-fd4 have the same pattern text as d15-d18.
-- r'(\d+\s*["\']\s*[-–]\s*\d+\s+\d+\/\d+\s*["\'])'
def fd5 : Pat := ⟨1, .grp 1 (seqL [dP, sStar, quoteC, sStar, dashC, sStar, dP,
  sPlus, frac, sStar, quoteC])⟩
-- r'(\d+\s*["\']\s*[-–]\s*\d+\s*["\'])'
def fd6 : Pat := ⟨1, .grp 1 (seqL [dP, sStar, quoteC, sStar, dashC, sStar, dP,
  sStar, quoteC])⟩
-- r'(\d+\s*["\']\s+\d+\s+\d+\/\d+\s*["\'])'
def fd7 : Pat := ⟨1, .grp 1 (seqL [dP, sStar, quoteC, sPlus, dP, sPlus, frac,
  sStar, quoteC])⟩
-- r'(\d+\s*["\']\s+\d+\s*["\'])'
def fd8 : Pat := ⟨1, .grp 1 (seqL [dP, sStar, quoteC, sPlus, dP, sStar, quoteC])⟩
-- r'(\d+\s*["\']\s*[-–]?\s*\d+\s*\d+\/\d+)'
def fd9 : Pat := ⟨1, .grp 1 (seqL [dP, sStar, quoteC, sStar, opt dashC, sStar,
  dP, sStar, frac])⟩
-- r'(\d+\s*["\']\s*[-–]?\s*\d+\s*\d+\/\d+\s*["\']?)'
def fd10 : Pat := ⟨1, .grp 1 (seqL [dP, sStar, quoteC, sStar, opt dashC, sStar,
  dP, sStar, frac, sStar, opt quoteC])⟩
-- r'(?:[=:]\s*)(\d+\s*["\']\s*[-–]?\s*\d+\s*\d+\/\d+\s*["\']?)'
def fd11 : Pat := ⟨1, seqL [.cls false [.ch '=', .ch ':'], sStar,
  .grp 1 (seqL [dP, sStar, quoteC, sStar, opt dashC, sStar, dP, sStar, frac,
    sStar, opt quoteC])]⟩
-- r'(?:[=:]\s*)(\d+\s*["\']\s*[-–]?\s*\d+\s*["\']?)'
def fd12 : Pat := ⟨1, seqL [.cls false [.ch '=', .ch ':'], sStar,
  .grp 1 (seqL [dP, sStar, quoteC, sStar, opt dashC, sStar, dP, sStar,
    opt quoteC])]⟩

def full_dim_patterns : List Pat :=
  [d15, d16, d17, d18, fd5, fd6, fd7, fd8, fd9, fd10, fd11, fd12]

-- r'\d+\s*["\']\s*[-–]?\s*\d+'   (searched without flags)
def dimShape : Pat := ⟨0, seqL [dP, sStar, quoteC, sStar, opt dashC, sStar, dP]⟩
-- r'^[\d\s\'\"\-\/\.]+$'   (matched without flags)
def numOnly : Pat := ⟨0, seqL [.bos, plus (.cls false [.dig, .spc, .ch '\'',
  .ch '"', .ch '-', .ch '/', .ch '.']), .eos]⟩
-- r'[A-Z]{2,}-\d+|[A-Z]{1,3}\d{2,}'
def hasModelPat : Pat := ⟨0, altL [seqL [.rep 2 none false (.cls false [AZ]),
  .lit '-', dP], seqL [.rep 1 (some 3) false (.cls false [AZ]),
  .rep 2 none false dC]]⟩
-- r'(diameter|dia|OD|ID|size|dimension|inch|inches|x\s*\d)'
def dimFracCtx : Pat := ⟨1, .grp 1 (altL [lits "diameter", lits "dia",
  lits "OD", lits "ID", lits "size", lits "dimension", lits "inch",
  lits "inches", seqL [.lit 'x', sStar, dC]])⟩
-- r'["\']|inch|inches|in|feet|ft|cm|mm|diameter|dia|ø|"|\'|x\s*\d'
def dimCtxLine : Pat := ⟨0, altL [quoteC, lits "inch", lits "inches", lits "in",
  lits "feet", lits "ft", lits "cm", lits "mm", lits "diameter", lits "dia",
  lits "ø", .lit '"', .lit '\'', seqL [.lit 'x', sStar, dC]]⟩
-- r'["\']|ø|inch|in|ft|cm|mm'
def dimUnits : Pat := ⟨0, altL [quoteC, lits "ø", lits "inch", lits "in",
  lits "ft", lits "cm", lits "mm"]⟩
-- r'["\']|ø|inch|inches|in|ft|feet|cm|mm|diameter|dia'   (enrich, line 708)
def enrichUnits : Pat := ⟨0, altL [quoteC, lits "ø", lits "inch", lits "inches",
  lits "in", lits "ft", lits "feet", lits "cm", lits "mm", lits "diameter",
  lits "dia"]⟩
-- r'(diameter|dia|OD|ID|inch|in|"|\'|ø|x\s*\d)'   (enrich, line 709)
def enrichCtx : Pat := ⟨1, .grp 1 (altL [lits "diameter", lits "dia", lits "OD",
  lits "ID", lits "inch", lits "in", .lit '"', .lit '\'', lits "ø",
  seqL [.lit 'x', sStar, dC]])⟩

-- mounting patterns ----------------------------------------------------
def mntSfx : Re := altL [lits "hung", lits "mount", lits "mounted", lits "mounting"]
def mntSfx3 : Re := altL [lits "mount", lits "mounted", lits "mounting"]
def dashSp : Re := .cls false [.ch '-', .spc]   -- [-\s]

-- r'\b(wall[-\s]*(?:hung|mount|mounted|mounting))\b'
def mt1 : Pat := ⟨1, seqL [.wb, .grp 1 (seqL [lits "wall", star dashSp, mntSfx]),
  .wb]⟩
-- r'\b(floor[-\s]*(?:mount|mounted|mounting))\b'
def mt2 : Pat := ⟨1, seqL [.wb, .grp 1 (seqL [lits "floor", star dashSp, mntSfx3]),
  .wb]⟩
-- r'\b(ceiling[-\s]*(?:mount|mounted|mounting))\b'
def mt3 : Pat := ⟨1, seqL [.wb, .grp 1 (seqL [lits "ceiling", star dashSp, mntSfx3]),
  .wb]⟩
-- r'\b(surface[-\s]*(?:mount|mounted|mounting))\b'
def mt4 : Pat := ⟨1, seqL [.wb, .grp 1 (seqL [lits "surface", star dashSp, mntSfx3]),
  .wb]⟩
-- r'\b(recessed|concealed|exposed|flush|flush[-\s]mount|undercounter|countertop|freestanding|portable|stationary|fixed|removable|slip[-\s]on|threaded|welded|bolted|hanging|suspended|ceiling[-\s]hung)\b'
def mt5 : Pat := kwGrp [lits "recessed", lits "concealed", lits "exposed",
  lits "flush", seqL [lits "flush", dashSp, lits "mount"], lits "undercounter",
  lits "countertop", lits "freestanding", lits "portable", lits "stationary",
  lits "fixed", lits "removable", seqL [lits "slip", dashSp, lits "on"],
  lits "threaded", lits "welded", lits "bolted", lits "hanging",
  lits "suspended", seqL [lits "ceiling", dashSp, lits "hung"]]
-- r'\b(mounting[-\s]type[:\s]+)(wall|floor|ceiling|surface|recessed|exposed)\b'
def mt6 : Pat := ⟨2, seqL [.wb, .grp 1 (seqL [lits "mounting", dashSp,
  lits "type", plus colSp]), .grp 2 (altL [lits "wall", lits "floor",
  lits "ceiling", lits "surface", lits "recessed", lits "exposed"]), .wb]⟩

def mounting_patterns : List Pat := [mt1, mt2, mt3, mt4, mt5, mt6]

-- spec patterns --------------------------------------------------------
-- r'\b(ASTM|ANSI|UL|CSA|ASME|NEMA|NFPA|AWWA|IPC|ISO|DIN|BS)[\s\-]?([A-Z0-9\.\-]+)'
def s1 : Pat := ⟨2, seqL [.wb, .grp 1 (altL [lits "ASTM", lits "ANSI", lits "UL",
  lits "CSA", lits "ASME", lits "NEMA", lits "NFPA", lits "AWWA", lits "IPC",
  lits "ISO", lits "DIN", lits "BS"]), opt (.cls false [.spc, .ch '-']),
  .grp 2 (plus (.cls false [AZ, n09, .ch '.', .ch '-']))]⟩
-- r'\b(grade|class|type|rating)\s+([A-Z0-9]+)'
def s2 : Pat := ⟨2, seqL [.wb, .grp 1 (altL [lits "grade", lits "class",
  lits "type", lits "rating"]), sPlus, .grp 2 (plus (.cls false [AZ, n09]))]⟩
-- r'\b(spec[\.:]?\s*#?|specification[:\s]*|ref[\.:]?\s*#?|reference[:\s]*)([A-Z0-9\.\-]+)'
def dotCol : Re := .cls false [.ch '.', .ch ':']   -- [\.:]
def s3 : Pat := ⟨2, seqL [.wb, .grp 1 (altL
  [seqL [lits "spec", opt dotCol, sStar, opt (.lit '#')],
   seqL [lits "specification", star colSp],
   seqL [lits "ref", opt dotCol, sStar, opt (.lit '#')],
   seqL [lits "reference", star colSp]]),
  .grp 2 (plus (.cls false [AZ, n09, .ch '.', .ch '-']))]⟩
-- r'\b(dwg[\.:]?\s*#?|drawing[:\s]*)([A-Z0-9\.\-]+)'
def s4 : Pat := ⟨2, seqL [.wb, .grp 1 (altL
  [seqL [lits "dwg", opt dotCol, sStar, opt (.lit '#')],
   seqL [lits "drawing", star colSp]]),
  .grp 2 (plus (.cls false [AZ, n09, .ch '.', .ch '-']))]⟩
-- r'\b(\d+\.\d+)(?:\s|$|,|;|:)(?!\s*(?:ea|each|pcs|pieces|qty|quantity))'
def s5 : Pat := ⟨1, seqL [.wb, .grp 1 decNum,
  altL [sC, .eos, .lit ',', .lit ';', .lit ':'],
  .nla (.cat sStar (altL [lits "ea", lits "each", lits "pcs", lits "pieces",
    lits "qty", lits "quantity"]))]⟩
-- r'\b(page\s+#?|pg[\.:]?\s*#?|p[\.:]?\s*#?)(\d+)'
def s6 : Pat := ⟨2, seqL [.wb, .grp 1 (altL
  [seqL [lits "page", sPlus, opt (.lit '#')],
   seqL [lits "pg", opt dotCol, sStar, opt (.lit '#')],
   seqL [lits "p", opt dotCol, sStar, opt (.lit '#')]]), .grp 2 dP]⟩
-- r'\b(see\s+)?(?:page|pg|p)\.?\s*(\d+)'
def s7 : Pat := ⟨2, seqL [.wb, opt (.grp 1 (.cat (lits "see") sPlus)),
  altL [lits "page", lits "pg", lits "p"], opt (.lit '.'), sStar, .grp 2 dP]⟩
-- r'\b(\d+)[\s\-]+(?:page|pg)\b'
def s8 : Pat := ⟨1, seqL [.wb, .grp 1 dP, plus (.cls false [.spc, .ch '-']),
  altL [lits "page", lits "pg"], .wb]⟩

/-- spec patterns paired with the `'page' in pattern.lower() or 'pg' in
pattern.lower()` test of `_enrich_item` (true exactly for the three page
patterns, whose pattern strings contain "page"). -/
def spec_patterns : List (Pat × Bool) :=
  [(s1, false), (s2, false), (s3, false), (s4, false), (s5, false),
   (s6, true), (s7, true), (s8, true)]

-- drawing-reference patterns (matched without flags on the uppercased line)
-- r'^[A-Z]\d+[-\.][A-Z]+[-\.]'
def dr1 : Pat := ⟨0, seqL [.bos, .cls false [AZ], dP, dashDot,
  plus (.cls false [AZ]), dashDot]⟩
-- r'^LINE\s+\d+'
def dr2 : Pat := ⟨0, seqL [.bos, lits "LINE", sPlus, dP]⟩
-- r'^DWG[-\.]\d+'
def dr3 : Pat := ⟨0, seqL [.bos, lits "DWG", dashDot, dP]⟩
-- r'^[A-Z]+\d*[-\.]MP[-\.]'
def dr4 : Pat := ⟨0, seqL [.bos, plus (.cls false [AZ]), star dC, dashDot,
  lits "MP", dashDot]⟩

def drawing_reference_patterns : List Pat := [dr1, dr2, dr3, dr4]

-- r'\b(\d+)\s*(ea|each|pcs|pieces|qty|quantity)'   (strong-indicator 4)
def strongQty : Pat := ⟨2, seqL [.wb, .grp 1 dP, sStar, .grp 2 (altL
  [lits "ea", lits "each", lits "pcs", lits "pieces", lits "qty",
   lits "quantity"])]⟩

-- r'\d+'   (quantity coercion in tables, page digits in enrichment)
def digitsPat : Pat := ⟨0, dP⟩

def exclude_phrases : List String :=
  ["OR USE", "USE IN", "IN WHOLE", "IN PART", "PROHIBITED", "COPYRIGHT",
   "ALL RIGHTS", "RESERVED", "CONFIDENTIAL", "STRICTLY PROHIBITED",
   "WITHOUT WRITTEN"]

-- r'^\d+\.\d+$'
def decAnchored : Pat := ⟨0, seqL [.bos, decNum, .eos]⟩

end CP

/-! ## Data model

Python dictionary values are modelled by `PVal` (absent/None, int, or str);
fields that the source only ever populates with strings are `Option String`.
Truthiness and `str()` follow Python. -/

inductive PVal where
  | nil
  | int (n : Int)
  | str (s : String)
deriving Repr, DecidableEq

namespace PVal

def truthy : PVal → Bool
  | .nil => false
  | .int n => n ≠ 0
  | .str s => s ≠ ""

/-- Python `str(v)` (for `None` / int / str values). -/
def pyStr : PVal → String
  | .nil => "None"
  | .int n => PyStr.reprInt n
  | .str s => s

end PVal

/-- truthiness of an optional string (Python: `None` and `''` are falsy). -/
def osTruthy : Option String → Bool
  | none => false
  | some s => s ≠ ""

/-- `str(v)` of an optional string. -/
def osPyStr : Option String → String
  | none => "None"
  | some s => s

/-- An extracted item dictionary, with the keys used by the source. -/
structure Item where
  fixture_type : Option String := none
  quantity : PVal := .nil
  model_number : Option String := none
  dimensions : Option String := none
  mounting_type : Option String := none
  spec_reference : Option String := none
  page_number : PVal := .nil
  table_number : PVal := .nil
  row_number : PVal := .nil
  raw_text : Option String := none
  line_number : PVal := .nil
deriving Repr, DecidableEq

/-- the `item_data` dictionary built by `_detect_item_line`; `typ`, `model`,
`mounting`, `spec` model the keys `'type'`, `'model'`, `'mounting'`,
`'spec'`; `hasSpecDec`/`specDecVal` model `'_has_spec_decimal'` /
`'_spec_decimal_value'`. -/
structure DetectData where
  typ : Option String := none
  quantity : PVal := .nil
  model : Option String := none
  dimensions : Option String := none
  mounting : Option String := none
  spec : Option String := none
  hasSpecDec : Bool := false
  specDecVal : Option String := none
deriving Repr, DecidableEq

namespace CP

open Rx PyStr

/-- duplicate-adjacent-word collapse used twice in `_detect_item_line`
(comparison against the previous word is case-insensitive). -/
def dedupAux : List String → Option String → List String
  | [], _ => []
  | w :: ws, prev =>
    if some (upper w) = prev then dedupAux ws prev
    else w :: dedupAux ws (some (upper w))

def dedupWords (s : String) : String :=
  joinSep " " (dedupAux (splitWs s) none)

/-- fixture scan: longest `match.group(0).strip()` over `re.finditer` of
every fixture pattern (strict improvement keeps the earliest). -/
def bestFixture (cs : List Char) : Option String :=
  fixture_patterns.foldl (fun acc p =>
    (findAll true p cs).foldl (fun acc m =>
      let t := strip (grp0 cs m)
      match acc with
      | none => if t.length > 0 then some t else none
      | some b => if t.length > b.length then some t else some b) acc) none

/-- the fixture-type block of `_detect_item_line` (lines 243-292). -/
def fixtureStep (cs : List Char) (dd : DetectData) :
    Option String × DetectData :=
  match bestFixture cs with
  | some bm =>
    let dd :=
      match search true (fullItemPat bm) cs with
      | some fm =>
        match grpGet cs fm 1 with
        | some g1 =>
          { dd with typ := some (title (dedupWords (strip g1 ++ " " ++ bm))) }
        | none => dd
      | none => { dd with typ := some (title bm) }
    (some bm, dd)
  | none =>
    let dd :=
      match search false capPhrase cs with
      | some cm =>
        match grpGet cs cm 1 with
        | some g1 =>
          let pt := strip g1
          let isDim := searchB false dimShape pt.data
          let isNum := matchStartB false numOnly (strip pt).data
          if (splitWs pt).length ≥ 2 && pt.length > 10 && !isDim && !isNum then
            { dd with typ := some pt }
          else dd
        | none => dd
      | none => dd
    (none, dd)

/-- one iteration of the quantity loop (lines 296-351); returns the updated
data and `true` when a quantity was assigned (the loop breaks). -/
def qtyOne (cs : List Char) (dd : DetectData) (p : Pat) :
    DetectData × Bool :=
  match search true p cs with
  | none => (dd, false)
  | some m =>
    match grpGet cs m 1 with
    | none => (dd, false)
    | some qty_str =>
      let partOfModel :=
        (model_patterns_in_line.any (fun mp =>
          match search true mp cs with
          | none => false
          | some mm => contains (grp0 cs mm) qty_str)) ||
        (let ctxBefore := upper (strip ⟨cs.take m.start⟩)
         ["UP TO", "SEE", "REFER TO", "USE"].any (fun ph => endsWith ctxBefore ph))
      let hasDot := qty_str.data.contains '.'
      let ddIs : DetectData × Bool :=
        if dd.hasSpecDec then
          (dd, dd.specDecVal = some qty_str || qty_str = dd.spec.getD "")
        else if hasDot then
          if !searchB true qtyLbl cs && searchB true specCtx cs then
            (if !osTruthy dd.spec then
               { dd with spec := some qty_str, hasSpecDec := true,
                         specDecVal := some qty_str }
             else dd, true)
          else (dd, false)
        else (dd, false)
      if !partOfModel && !ddIs.2 then
        ({ ddIs.1 with quantity :=
            if hasDot then .str qty_str else .int (toNatD qty_str) }, true)
      else (ddIs.1, false)

def qtyStep (cs : List Char) (dd : DetectData) : DetectData :=
  (quantity_patterns.foldl (fun (st : DetectData × Bool) p =>
    if st.2 then st else qtyOne cs st.1 p) (dd, false)).1

/-- the reversed-group loop of the model block (lines 361-387).  The
`continue` statements move to the next group; reaching the guarded branch
always ends in `break` (returning the accumulated list). -/
def modelGroups (line : String) (cs : List Char) :
    List String → List (Option String) → List String
  | models, [] => models
  | models, g :: gs =>
    match g with
    | none => modelGroups line cs models gs
    | some g0 =>
      if g0 = "" || strip g0 = "" then modelGroups line cs models gs
      else
        let model := strip g0
        if !matchStartB false pureDigits model.data && model.length > 1 &&
            model.length < 50 then
          if model.length ≥ 2 then
            if model.length ≤ 4 && matchStartB false shortCode model.data then
              if legal_words.any (fun w => contains (upper line) w) then
                modelGroups line cs models gs
              else if !searchB true modelLbl cs then
                modelGroups line cs models gs
              else if (splitWs (strip line)).length ≤ 2 &&
                  contains (upper line) (upper model) then
                modelGroups line cs models gs
              else if searchB false upperOne model.data &&
                  searchB false digitOne model.data && !models.contains model then
                models ++ [model]
              else models
            else models
          else modelGroups line cs models gs
        else modelGroups line cs models gs

/-- the model block (lines 353-405): every pattern's `finditer` matches are
processed; the source's `else` arm for group-less matches is unreachable
because every model pattern has a capturing group. -/
def modelStep (line : String) (cs : List Char) : List String :=
  model_patterns.foldl (fun models p =>
    (findAll true p cs).foldl (fun models m =>
      modelGroups line cs models ((groups cs m p.ng).reverse)) models) []

/-- the per-dimension filter of lines 416-426. -/
def dimKeep (line : String) (cs : List Char) (dim : String) : Bool :=
  if dim.data.contains '/' && dim.length ≤ 4 then
    let hasModel := searchB true hasModelPat cs
    let hasInstr := ["UP TO", "SEE", "REFER TO"].any
      (fun ph => contains (upper line) ph)
    if (hasModel || hasInstr) && !searchB true dimFracCtx cs then false
    else true
  else true

/-- the dimension block (lines 407-486). -/
def dimStep (line : String) (cs : List Char) : DetectData → List Pat → DetectData
  | dd, [] => dd
  | dd, p :: ps =>
    match search true p cs with
    | none => dimStep line cs dd ps
    | some m =>
      let dim_parts := (groups cs m p.ng).filterMap (fun g =>
        match g with
        | none => none
        | some s => if s = "" then none else some s)
      if dim_parts = [] then dimStep line cs dd ps
      else
        let filtered := dim_parts.filter (dimKeep line cs)
        if filtered = [] then dimStep line cs dd ps
        else
          match full_dim_patterns.findSome? (fun fp =>
              (search true fp cs).bind (fun fm => grpGet cs fm 1)) with
          | some fdim => { dd with dimensions := some (strip fdim) }
          | none =>
            if filtered.length ≥ 2 then
              { dd with dimensions := some (joinSep " x " filtered) }
            else
              let single := filtered.headD ""
              let standalone := matchStartB false pureDigits (strip single).data
              let hasCtx := searchB true dimCtxLine cs
              let hasUnits := searchB true dimUnits single.data
              if hasUnits || (hasCtx && !standalone) then
                { dd with dimensions := some single }
              else dimStep line cs dd ps

/-- the mounting block of `_detect_item_line` (lines 489-494). -/
def mountStep (cs : List Char) (dd : DetectData) : DetectData :=
  match mounting_patterns.findSome? (fun p => search true p cs) with
  | some m => { dd with mounting := some (strip (grp0 cs m)) }
  | none => dd

/-- the spec block of `_detect_item_line` (lines 498-514); a pattern whose
joined groups strip to the empty string does not break the loop. -/
def specStep (cs : List Char) : DetectData → List (Pat × Bool) → DetectData
  | dd, [] => dd
  | dd, (p, _) :: ps =>
    match search true p cs with
    | none => specStep cs dd ps
    | some m =>
      let spec_str := strip (joinSep " "
        ((groups cs m p.ng).filterMap (fun g =>
          match g with
          | none => none
          | some s => if s = "" then none else some s)))
      if spec_str = "" then specStep cs dd ps
      else
        let dd := { dd with spec := some spec_str }
        if spec_str.data.contains '.' &&
            matchStartB false decAnchored spec_str.data then
          { dd with hasSpecDec := true, specDecVal := some spec_str }
        else dd

/-- the fallback fixture-type inference of lines 598-622. -/
def fallbackType (line : String) (dd : DetectData) : DetectData :=
  if !osTruthy dd.typ && (dd.quantity.truthy || osTruthy dd.model) then
    let ws := splitWs line
    if ws ≠ [] then
      let pt := strip (joinSep " " (ws.take 3))
      let isDim := searchB false dimShape pt.data
      let isNum := matchStartB false numOnly (strip pt).data
      if exclude_phrases.any (fun ph => contains (upper pt) ph) || isDim || isNum
      then dd
      else if pt.length < 40 then { dd with typ := some pt }
      else dd
    else dd
  else dd

/-- the instruction-indicator test of lines 518-531. -/
def instrIndB (line : String) : Bool :=
  let lineStripped := upper (strip line)
  startsWith lineStripped "UP TO" || startsWith lineStripped "SEE " ||
  startsWith lineStripped "REFER " || startsWith lineStripped "USE " ||
  startsWith lineStripped "INSTALL " || startsWith lineStripped "MOUNT " ||
  startsWith lineStripped "CONNECT " || contains lineStripped "SEE PAGE" ||
  contains lineStripped "SEE DRAWING" || contains lineStripped "SEE SPEC" ||
  contains lineStripped "REFER TO"

/-- the drawing/line-reference handling of lines 535-559; in the source
`line_stripped == line.strip().upper()` always holds, so only the
whole-line branch of lines 546-555 is reachable. -/
def drawSpecSet (line : String) (dd : DetectData) : DetectData :=
  if !osTruthy dd.spec then { dd with spec := some (strip line) } else dd

def drawTypClear (line : String) (dd : DetectData) : DetectData :=
  if dd.typ = some (strip line) then { dd with typ := none } else dd

def drawStep (line : String) (dd : DetectData) : Option DetectData :=
  let isDrawRef := drawing_reference_patterns.any
    (fun p => matchStartB false p (upper (strip line)).data)
  if isDrawRef then
    let dd := drawTypClear line (drawSpecSet line dd)
    if !(osTruthy dd.model || dd.quantity.truthy || osTruthy dd.dimensions)
    then none else some dd
  else some dd

/-- the strong-indicator disjunction of lines 561-593. -/
def strongB (cs : List Char) (best : Option String) (dd : DetectData) : Bool :=
  (osTruthy dd.typ && best.isSome) ||
  (dd.quantity.truthy && osTruthy dd.model) ||
  (osTruthy dd.model &&
    (osTruthy dd.mounting || osTruthy dd.spec || osTruthy dd.typ ||
     dd.quantity.truthy)) ||
  (dd.quantity.truthy && searchB true strongQty cs)

/-- the item finalisation of lines 596-646: fallback fixture type, flag
pop, duplicate-word cleanup.  The dedup of lines 630-633 compares
`item_data.get('quantity')` with `item_data.get('spec_reference')`; the
dictionary never holds a 'spec_reference' key (the spec value is stored
under 'spec'), so that removal can never fire and is a no-op. -/
def finishItem (line : String) (dd : DetectData) : DetectData :=
  let dd := fallbackType line dd
  let dd := { dd with hasSpecDec := false, specDecVal := none }
  if osTruthy dd.typ then { dd with typ := some (dedupWords (dd.typ.getD "")) }
  else dd

/-- the final-validation/gate part of `_detect_item_line`
(construction.py lines 516-649). -/
def finishGate (line : String) (cs : List Char) (best : Option String)
    (dd : DetectData) : Option DetectData :=
  if instrIndB line then none
  else
    match drawStep line dd with
    | none => none
    | some dd2 =>
      if strongB cs best dd2 then some (finishItem line dd2) else none

/-- `ConstructionParser._detect_item_line` (construction.py lines 216-649).
The page/line arguments of the source are unused by the function body. -/
def detect_item_line (line : String) : Option DetectData :=
  let cs := line.data
  if exclude_patterns.any (fun p => searchB true p cs) then none
  else
  let lineUpper := strip (upper line)
  if instruction_phrases.any (fun ph => startsWith lineUpper (upper ph)) then none
  else if matchStartB true instrVerbs cs then none
  else if (strip line).length < 3 then none
  else
    let bd := fixtureStep cs {}
    let best := bd.1
    let dd := qtyStep cs bd.2
    let models := modelStep line cs
    let dd :=
      if models ≠ [] then
        { dd with model := some (joinSep ", " (models.take 2)) }
      else dd
    let dd := dimStep line cs dd dimension_patterns
    let dd := mountStep cs dd
    let dd := specStep cs dd spec_patterns
    finishGate line cs best dd

/-! ### `_enrich_item` (construction.py lines 651-758) -/

/-- `[-\s]+` replaced by `-` (`re.sub(r'[-\s]+', '-', ...)`). -/
def subDashAux : List Char → Bool → List Char
  | [], _ => []
  | c :: cs, inRun =>
    if c = '-' || isSpace c then
      if inRun then subDashAux cs true else '-' :: subDashAux cs true
    else c :: subDashAux cs false

def subDash (s : String) : String := ⟨subDashAux s.data false⟩

/-- `str.replace(old, new)` (leftmost, non-overlapping); the fuel is the
input length, enough since every step consumes at least one character. -/
def replaceAux (old new : List Char) : Nat → List Char → List Char
  | 0, s => s
  | _, [] => []
  | fuel + 1, c :: cs =>
    if !old.isEmpty && old.isPrefixOf (c :: cs) then
      new ++ replaceAux old new fuel ((c :: cs).drop old.length)
    else c :: replaceAux old new fuel cs

def pyReplace (s old new : String) : String :=
  ⟨replaceAux old.data new.data s.data.length s.data⟩

/-- mounting normalization of `_enrich_item` (lines 726-729). -/
def normMount (mounting : String) : String :=
  title (pyReplace (pyReplace (subDash (lower mounting)) "mounting" "mount")
    "hung" "mount")

def enrichQty (it : Item) (cs : List Char) : Item :=
  match quantity_patterns.findSome? (fun p => search true p cs) with
  | none => it
  | some m =>
    match grpGet cs m 1 with
    | none => it
    | some q =>
      { it with quantity :=
          if q.data.contains '.' then .str q else .int (toNatD q) }

def enrichModel (it : Item) (cs : List Char) : Item :=
  match model_patterns.findSome? (fun p => (search true p cs).map (p, ·)) with
  | none => it
  | some (p, m) =>
    -- last non-empty group wins; the group-less arm of the source is
    -- unreachable (every model pattern has a capturing group).
    match (groups cs m p.ng).reverse.findSome? (fun g =>
        match g with
        | none => none
        | some s => if s ≠ "" && strip s ≠ "" then some (strip s) else none) with
    | some model => { it with model_number := some model }
    | none => it

def enrichDims (it : Item) (cs : List Char) : Item :=
  match dimension_patterns.findSome? (fun p => (search true p cs).map (p, ·)) with
  | none => it
  | some (p, m) =>
    let parts := (groups cs m p.ng).filterMap (fun g =>
      match g with
      | none => none
      | some s => if s ≠ "" && strip s ≠ "" then some (strip s) else none)
    if parts = [] then it
    else if parts.length > 1 then
      { it with dimensions := some (joinSep " x " parts) }
    else
      let single := parts.headD ""
      let standalone := matchStartB false pureDigits (strip single).data
      let hasUnits := searchB true enrichUnits single.data
      let hasCtx := searchB true enrichCtx cs
      if hasUnits || (hasCtx && !standalone) then
        { it with dimensions := some single }
      else it

def enrichMount (it : Item) (cs : List Char) : Item :=
  match mounting_patterns.findSome? (fun p => search true p cs) with
  | none => it
  | some m =>
    let mounting := strip (grp0 cs m)
    if mounting ≠ "" then { it with mounting_type := some (normMount mounting) }
    else it

/-- first spec pattern matching the line, with its page flag. -/
def specFind (cs : List Char) : Option (Pat × Bool × Mtc) :=
  spec_patterns.findSome? (fun pp =>
    (search true pp.1 cs).map (fun m => (pp.1, pp.2, m)))

/-- `' '.join([g for g in groups if g]).strip()`. -/
def specStr (cs : List Char) (p : Pat) (m : Mtc) : String :=
  strip (joinSep " "
    ((groups cs m p.ng).filterMap (fun g =>
      match g with
      | none => none
      | some s => if s = "" then none else some s)))

def enrichSpec (it : Item) (cs : List Char) : Item :=
  match specFind cs with
  | none => it
  | some (p, isPage, m) =>
    let spec_str := specStr cs p m
    let it := if spec_str ≠ "" then { it with spec_reference := some spec_str }
      else it
    if isPage then
      match search false digitsPat spec_str.data with
      | some dm =>
        { it with page_number := .int (toNatD (grp0 spec_str.data dm)) }
      | none => it
    else it

/-- the page number that the spec step of `_enrich_item` would write for
this context line (`none` when the first matching spec pattern is not a
page pattern, or nothing matches, or the matched text has no digits). -/
def pageOverride (line : String) : Option Int :=
  match specFind line.data with
  | none => none
  | some (p, isPage, m) =>
    if isPage then
      (search false digitsPat (specStr line.data p m).data).map
        (fun dm => ((toNatD (grp0 (specStr line.data p m).data dm) : Int)))
    else none

/-- `ConstructionParser._enrich_item`: each field is only filled when still
falsy; the spec step may overwrite `page_number` from a page reference. -/
def enrich_item (it : Item) (line : String) : Item :=
  let cs := line.data
  let it := if !it.quantity.truthy then enrichQty it cs else it
  let it := if !osTruthy it.model_number then enrichModel it cs else it
  let it := if !osTruthy it.dimensions then enrichDims it cs else it
  let it := if !osTruthy it.mounting_type then enrichMount it cs else it
  let it := if !osTruthy it.spec_reference then enrichSpec it cs else it
  it

/-! ### `extract_items` (construction.py lines 153-214) -/

/-- truthiness test guarding the emission of an accumulated item. -/
def presentB (it : Item) : Bool :=
  osTruthy it.fixture_type || osTruthy it.model_number || it.quantity.truthy

def emitIf (cur : Option Item) (items : List Item) : List Item :=
  match cur with
  | none => items
  | some it => if presentB it then items ++ [it] else items

/-- the line loop of `extract_items`, walking indices into the raw line
list (needed for the previous/next-line context of enrichment). -/
def extractGo (lines : List String) (page : Int) :
    List Nat → Option Item → List Item → List Item
  | [], cur, items => emitIf cur items
  | i :: is, cur, items =>
    let line := strip (lines.getD i "")
    if line = "" then extractGo lines page is cur items
    else
      match detect_item_line line with
      | some dd =>
        let items := emitIf cur items
        let newIt : Item :=
          { fixture_type := dd.typ, quantity := dd.quantity,
            model_number := dd.model, dimensions := dd.dimensions,
            mounting_type := dd.mounting, spec_reference := dd.spec,
            page_number := .int page, raw_text := some line,
            line_number := .int (i + 1) }
        extractGo lines page is (some newIt) items
      | none =>
        match cur with
        | none => extractGo lines page is none items
        | some it =>
          let ctx :=
            (if i > 0 then [strip (lines.getD (i - 1) "")] else []) ++
            [line] ++
            (if i + 1 < lines.length then [strip (lines.getD (i + 1) "")] else [])
          let it := ctx.foldl (fun it l =>
            if l = "" then it else enrich_item it l) it
          extractGo lines page is (some it) items

/-- `ConstructionParser.extract_items`. -/
def extract_items (text : String) (page_num : Int) : List Item :=
  let lines := splitNl text
  extractGo lines page_num (List.range lines.length) none []

/-! ### `parse_tables` (construction.py lines 760-829) -/

inductive TField where
  | fixture_type | quantity | model_number | dimensions | mounting_type
  | spec_reference
deriving Repr, DecidableEq

def column_mapping : List (TField × List String) :=
  [(.fixture_type, ["item", "fixture", "type", "description", "product",
      "component"]),
   (.quantity, ["qty", "quantity", "qty.", "count", "number", "pieces"]),
   (.model_number, ["model", "part #", "part number", "pn", "sku", "cat #",
      "catalog #", "item #"]),
   (.dimensions, ["size", "dimension", "dimensions", "length", "width",
      "height", "diameter"]),
   (.mounting_type, ["mounting", "mount", "installation", "location"]),
   (.spec_reference, ["spec", "specification", "standard", "grade", "class"])]

/-- header → field mapping: first field one of whose keywords is contained
in the header cell. -/
def headerField (h : String) : Option TField :=
  column_mapping.findSome? (fun (f, kws) =>
    if kws.any (fun kw => contains h kw) then some f else none)

/-- populate one cell (lines 805-817): quantity cells are coerced to their
first embedded integer; an empty quantity cell stores `None`. -/
def setCell (it : Item) (f : TField) (cell : Option String) : Item :=
  let value := match cell with | none => "" | some c => strip c
  match f with
  | .quantity =>
    if value ≠ "" then
      match search false digitsPat value.data with
      | some m => { it with quantity := .int (toNatD (grp0 value.data m)) }
      | none => it
    else { it with quantity := .nil }
  | .fixture_type =>
    { it with fixture_type := if value ≠ "" then some value else none }
  | .model_number =>
    { it with model_number := if value ≠ "" then some value else none }
  | .dimensions =>
    { it with dimensions := if value ≠ "" then some value else none }
  | .mounting_type =>
    { it with mounting_type := if value ≠ "" then some value else none }
  | .spec_reference =>
    { it with spec_reference := if value ≠ "" then some value else none }

/-- row acceptance (lines 819-827). -/
def acceptRow (row : List (Option String)) (it : Item) : List Item :=
  if osTruthy it.fixture_type || it.quantity.truthy || osTruthy it.model_number
  then [it]
  else if osTruthy it.dimensions || osTruthy it.mounting_type ||
      osTruthy it.spec_reference then
    match row.headD none with
    | some c => if c ≠ "" then [{ it with fixture_type := some (strip c) }] else []
    | none => []
  else []

/-- one data row of `parse_tables` (`rp` = (0-based row offset, row)). -/
def rowItems (page_num : Int) (tIdx : Nat) (hmap : List (Nat × TField))
    (rp : Nat × List (Option String)) : List Item :=
  let base : Item :=
    { page_number := .int page_num, table_number := .int (tIdx + 1),
      row_number := .int (rp.1 + 1) }
  let it := rp.2.enum.foldl (fun it cc =>
    match hmap.lookup cc.1 with
    | some f => setCell it f cc.2
    | none => it) base
  acceptRow rp.2 it

/-- one table of `parse_tables` (`tp` = (0-based table index, table)). -/
def tableItems (page_num : Int) (tp : Nat × List (List (Option String))) :
    List Item :=
  if tp.2.length < 2 then []
  else
    let headers := (tp.2.headD []).map (fun cell =>
      match cell with
      | some c => if c = "" then "" else lower (strip c)
      | none => "")
    let hmap := headers.enum.filterMap (fun ch =>
      (headerField ch.2).map (ch.1, ·))
    (tp.2.drop 1).enum.flatMap (rowItems page_num tp.1 hmap)

/-- `ConstructionParser.parse_tables`. -/
def parse_tables (tables : List (List (List (Option String)))) (page_num : Int) :
    List Item :=
  tables.enum.flatMap (tableItems page_num)

end CP

/-! ## `ConstructionExtractionStrategy` (extraction_service.py)

The external text-understanding call is abstracted as an `LlmCall` outcome:
it either raises (`err`) or returns a response whose `'items'` key is
missing (`ok none`) or holds a list (`ok (some ls)`). -/

namespace Svc

open PyStr

/-- `(item.get(f) or '').lower()` for a string field. -/
def lowOS : Option String → String
  | none => ""
  | some s => lower s

/-- the similarity score of `_find_best_match` (lines 377-408). -/
def matchScore (r l : Item) : Nat :=
  let rf := lowOS r.fixture_type
  let lf := lowOS l.fixture_type
  let rm := lowOS r.model_number
  let lm := lowOS l.model_number
  let s : Nat := 0
  let s := if rf ≠ "" && lf ≠ "" then
      (if rf = lf then s + 10
       else if contains lf rf || contains rf lf then s + 5 else s)
    else s
  let s := if rm ≠ "" && lm ≠ "" then
      (if rm = lm then s + 8
       else if contains lm rm || contains rm lm then s + 4 else s)
    else s
  if r.page_number.truthy && l.page_number.truthy &&
      r.page_number = l.page_number then s + 3 else s

/-- the scan of `_find_best_match`: strict improvement, so the earliest
maximal unused candidate is kept. -/
def scanBest (r : Item) : List Item → Nat → List Nat → Nat × Option Nat →
    Nat × Option Nat
  | [], _, _, st => st
  | l :: ls, idx, used, (bs, bi) =>
    if used.contains idx then scanBest r ls (idx + 1) used (bs, bi)
    else
      let sc := matchScore r l
      if sc > bs then scanBest r ls (idx + 1) used (sc, some idx)
      else scanBest r ls (idx + 1) used (bs, bi)

/-- `ConstructionExtractionStrategy._find_best_match` (lines 360-411). -/
def find_best_match (r : Item) (llm : List Item) (used : List Nat) :
    Option Nat :=
  let (bs, bi) := scanBest r llm 0 used (0, none)
  if bs ≥ 3 then bi else none

/-- `len(str(v))` of an optional string field. -/
def osLen (v : Option String) : Nat := (osPyStr v).length

/-- the field-merge rule of `_merge_item_data` for a string field. -/
def mergeOS (b e : Option String) : Option String :=
  if !osTruthy b && osTruthy e then e
  else if osTruthy b && osTruthy e then
    (if osLen b > osLen e then b else e)
  else b

def pvLen (v : PVal) : Nat := v.pyStr.length

/-- the field-merge rule for the quantity field (int or str). -/
def mergeQty (b e : PVal) : PVal :=
  if !b.truthy && e.truthy then e
  else if b.truthy && e.truthy then (if pvLen b > pvLen e then b else e)
  else b

/-- `ConstructionExtractionStrategy._merge_item_data` (lines 413-447):
starts from a copy of the base item, so the provenance keys
(page/table/row/line/raw_text) are untouched. -/
def merge_item_data (base enh : Item) : Item :=
  { base with
    fixture_type := mergeOS base.fixture_type enh.fixture_type,
    quantity := mergeQty base.quantity enh.quantity,
    model_number := mergeOS base.model_number enh.model_number,
    dimensions := mergeOS base.dimensions enh.dimensions,
    mounting_type := mergeOS base.mounting_type enh.mounting_type,
    spec_reference := mergeOS base.spec_reference enh.spec_reference }

instance : Inhabited Item := ⟨{}⟩

/-- step 1 of `_merge_regex_and_llm_items`: enrich each regex item with its
best unused external match. -/
def mergeLoop (llm : List Item) : List Item → List Nat → List Item →
    List Nat × List Item
  | [], used, acc => (used, acc)
  | r :: rs, used, acc =>
    match find_best_match r llm used with
    | some i =>
      mergeLoop llm rs (used ++ [i])
        (acc ++ [merge_item_data r (llm.getD i default)])
    | none => mergeLoop llm rs used (acc ++ [r])

/-- `ConstructionExtractionStrategy._merge_regex_and_llm_items`
(lines 318-358). -/
def merge_regex_and_llm_items (regex llm : List Item) : List Item :=
  let ul := mergeLoop llm regex [] []
  ul.2 ++ llm.enum.filterMap (fun il =>
    if ul.1.contains il.1 then none
    else if il.2.page_number.truthy || osTruthy il.2.fixture_type then some il.2
    else none)

/-- outcome of the external text-understanding call. -/
inductive LlmCall where
  | err
  | ok (resp : Option (List Item))

def osFilled : Option String → Bool
  | none => false
  | some s => s ≠ ""

def pvFilled : PVal → Bool
  | .nil => false
  | .int _ => true
  | .str s => s ≠ ""

/-- `sum(1 for v in item.values() if v is not None and v != '')`. -/
def filledCount (it : Item) : Nat :=
  [osFilled it.fixture_type, pvFilled it.quantity, osFilled it.model_number,
   osFilled it.dimensions, osFilled it.mounting_type,
   osFilled it.spec_reference, pvFilled it.page_number,
   pvFilled it.table_number, pvFilled it.row_number, osFilled it.raw_text,
   pvFilled it.line_number].count true

/-- `ConstructionExtractionStrategy._enhance_with_llm` (lines 216-316):
total — an exception of the external call is the `err` outcome and is
swallowed; an absent or empty item list is a no-op. -/
def enhance_with_llm (items : List Item) (call : LlmCall) : List Item × Bool :=
  match call with
  | .err => (items, false)
  | .ok none => (items, false)
  | .ok (some ls) =>
    if ls.isEmpty then (items, false)
    else
      let merged := merge_regex_and_llm_items items ls
      if merged.length = items.length then
        let changed := (merged.zip items).any
          (fun (m, o) => filledCount m > filledCount o)
        if changed then (merged, true) else (items, false)
      else (merged, true)

/-! ### `_validate_items` and the `ExtractedItem` pydantic model -/

/-- integer coercion of a dictionary value (pydantic lax mode: ints pass,
decimal strings with an optional sign coerce, anything else fails). -/
def coerceInt : PVal → Except Unit (Option Int)
  | .nil => .ok none
  | .int n => .ok (some n)
  | .str s =>
    match s.data with
    | [] => .error ()
    | '-' :: ds =>
      if ds ≠ [] && ds.all isDigit then .ok (some (-(toNatD ⟨ds⟩ : Int)))
      else .error ()
    | ds => if ds.all isDigit then .ok (some (toNatD s)) else .error ()

/-- the `clean_quantity` validator of `ExtractedItem`. -/
def cleanQty : PVal → PVal
  | .nil => .nil
  | .int n => .int n
  | .str s =>
    let v := strip s
    if v.data.contains '.' || v.data.contains ',' then .str v
    else
      match coerceInt (.str v) with
      | .ok (some n) => .int n
      | _ => .str v

/-- the `clean_fixture_type` / `clean_dimensions` validators: strip when
truthy. -/
def cleanStr : Option String → Option String
  | none => none
  | some s => if s ≠ "" then some (strip s) else some s

/-- the `clean_model_number` validator: strip and uppercase when truthy. -/
def cleanModel : Option String → Option String
  | none => none
  | some s => if s ≠ "" then some (upper (strip s)) else some s

/-- a validated `ExtractedItem`. -/
structure VItem where
  fixture_type : Option String
  quantity : PVal
  model_number : Option String
  dimensions : Option String
  mounting_type : Option String
  spec_reference : Option String
  page_number : Int
  table_number : Option Int
  row_number : Option Int
  raw_text : Option String
  line_number : Option Int
deriving Repr, DecidableEq

def geOne : Option Int → Except Unit (Option Int)
  | none => .ok none
  | some n => if n < 1 then .error () else .ok (some n)

/-- `ExtractedItem(**d)`: `page_number` is required with `ge=1`;
`table_number`, `row_number`, `line_number` are optional with `ge=1`.
When `pageDefault` is set (the fallback constructor of `_validate_items`,
which passes `item.get('page_number', 1)`), a missing `page_number`
becomes the integer 1; a present invalid value still fails. -/
def mkExtractedItem (d : Item) (pageDefault : Bool) : Except Unit VItem := do
  let pv := if pageDefault && d.page_number = .nil then PVal.int 1
    else d.page_number
  let pg? ← coerceInt pv
  match pg? with
  | none => .error ()
  | some pg =>
    if pg < 1 then .error ()
    else do
      let tb ← geOne (← coerceInt d.table_number)
      let rw ← geOne (← coerceInt d.row_number)
      let ln ← geOne (← coerceInt d.line_number)
      .ok { fixture_type := cleanStr d.fixture_type,
            quantity := cleanQty d.quantity,
            model_number := cleanModel d.model_number,
            dimensions := cleanStr d.dimensions,
            mounting_type := d.mounting_type,
            spec_reference := d.spec_reference,
            page_number := pg, table_number := tb, row_number := rw,
            raw_text := d.raw_text, line_number := ln }

/-- one step of `_validate_items`: try the full constructor; on failure run
the fallback constructor, whose own failure propagates. -/
def validateOne (it : Item) : Except Unit VItem :=
  match mkExtractedItem it false with
  | .ok v => .ok v
  | .error _ => mkExtractedItem it true

/-- `ConstructionExtractionStrategy._validate_items` (lines 153-174).  An
exception escaping the fallback constructor aborts the whole list (there
is no surrounding handler in `extract`). -/
def validate_items (items : List Item) : Except Unit (List VItem) :=
  items.mapM validateOne

end Svc

namespace Svc

open PyStr

/-- The scoring table as the specification words it: +10 for exact
fixture_type equality and +5 for substring containment either way, +8 for
exact model_number equality and +4 for containment, +3 for equal (present)
page_number; comparisons are on the case-normalized present values. -/
def scoreSpec (r l : Item) : Nat :=
  (if lowOS r.fixture_type ≠ "" && lowOS l.fixture_type ≠ "" then
     if lowOS r.fixture_type = lowOS l.fixture_type then 10
     else if contains (lowOS l.fixture_type) (lowOS r.fixture_type) ||
         contains (lowOS r.fixture_type) (lowOS l.fixture_type) then 5
     else 0
   else 0) +
  (if lowOS r.model_number ≠ "" && lowOS l.model_number ≠ "" then
     if lowOS r.model_number = lowOS l.model_number then 8
     else if contains (lowOS l.model_number) (lowOS r.model_number) ||
         contains (lowOS r.model_number) (lowOS l.model_number) then 4
     else 0
   else 0) +
  (if r.page_number.truthy && l.page_number.truthy &&
      r.page_number = l.page_number then 3 else 0)

end Svc

/-! ## Claim theorems -/

/-- C1: on the input line `2 VALVE PACKAGE (OM-141), Wall-Mounted, 1 1/2"ø`
with page number 2, `extract_items` returns exactly one item whose
fixture_type is "Valve Package", whose mounting_type is the normalized
wall-mount form "Wall-Mounted", whose dimensions are the string `1 1/2"ø`,
and whose page_number is 2 — but whose model_number is `None`, not
"OM-141": in the model block of `_detect_item_line` the append to
`all_models` (construction.py line 384-386) sits inside the
`len(model) <= 4 and re.match(r'^[A-Z]\d+$', model)` short-code branch, so
a hyphenated model such as OM-141 reaches the `break` without ever being
recorded, contradicting the pattern catalog's own comments
("Formats like OM-141, OM-105, HUH-13"). -/
theorem C1_model_number_dropped :
    CP.extract_items "2 VALVE PACKAGE (OM-141), Wall-Mounted, 1 1/2\"ø" 2 =
      [{ fixture_type := some "Valve Package", quantity := .nil,
         model_number := none, dimensions := some "1 1/2\"ø",
         mounting_type := some "Wall-Mounted", spec_reference := none,
         page_number := .int 2,
         raw_text := some "2 VALVE PACKAGE (OM-141), Wall-Mounted, 1 1/2\"ø",
         line_number := .int 1 }] := by rfl

/-- C3: whenever the external text-understanding call raises, or returns a
response without an item list, or returns an empty item list, the merge
step `_enhance_with_llm` returns exactly the regex items unchanged and
reports `llm_actually_worked = False`; the function is total, so no
exception escapes this boundary. -/
theorem C3_llm_failure_noop (items : List Item) (call : Svc.LlmCall)
    (h : call = .err ∨ call = .ok none ∨ call = .ok (some [])) :
    Svc.enhance_with_llm items call = (items, false) := by
  rcases h with h | h | h <;> subst h <;> simp [Svc.enhance_with_llm]

/-- C3 witness: the no-op behaviour at a concrete two-item regex list for
each of the three failure shapes. -/
theorem C3_llm_failure_noop_witness :
    Svc.enhance_with_llm [{ page_number := .int 1 },
      { fixture_type := some "Valve", page_number := .int 2 }] .err =
      ([{ page_number := .int 1 },
        { fixture_type := some "Valve", page_number := .int 2 }], false) ∧
    Svc.enhance_with_llm [{ page_number := .int 1 },
      { fixture_type := some "Valve", page_number := .int 2 }] (.ok none) =
      ([{ page_number := .int 1 },
        { fixture_type := some "Valve", page_number := .int 2 }], false) ∧
    Svc.enhance_with_llm [{ page_number := .int 1 },
      { fixture_type := some "Valve", page_number := .int 2 }] (.ok (some [])) =
      ([{ page_number := .int 1 },
        { fixture_type := some "Valve", page_number := .int 2 }], false) :=
  ⟨C3_llm_failure_noop _ _ (Or.inl rfl),
   C3_llm_failure_noop _ _ (Or.inr (Or.inl rfl)),
   C3_llm_failure_noop _ _ (Or.inr (Or.inr rfl))⟩

/-- C4: on the line `Valve XYZ-12 31.1`, which carries the
model-number-shaped token XYZ-12, the decimal 31.1 is stored as the item's
quantity AND as its spec_reference simultaneously: the quantity step's
context test only knows the literal markers `OM-`, `MAU-`, `CH<digits>`,
`model`, `part #` and a digit-quote, so XYZ-12 does not reclassify the
decimal, while the spec step records the same decimal independently; the
guard of construction.py lines 628-633, whose comment promises that "spec
references should ONLY be in spec_reference, not quantity", reads the
never-present key `'spec_reference'` instead of `'spec'` and therefore
never fires. -/
theorem C4_decimal_in_both_fields :
    (CP.extract_items "Valve XYZ-12 31.1" 1).map
        (fun it => (it.quantity, it.spec_reference)) =
      [(.str "31.1", some "31.1")] := by rfl

/-- C8: a single table with header `["Item","Qty","Model"]` and data row
`["Pump","3","CP-22"]` yields, on any page `p`, exactly one item with
fixture_type "Pump", integer quantity 3, model_number "CP-22",
table_number 1 and row_number 1. -/
theorem C8_table_pump_row (p : Int) :
    CP.parse_tables [[[some "Item", some "Qty", some "Model"],
                      [some "Pump", some "3", some "CP-22"]]] p =
      [{ fixture_type := some "Pump", quantity := .int 3,
         model_number := some "CP-22", page_number := .int p,
         table_number := .int 1, row_number := .int 1 }] := by rfl

/-- C9: an assembled item whose `page_number` value is the invalid integer
0 makes `ExtractedItem` validation fail, and the fallback constructor of
`_validate_items` — built from the very same field values
(`item.get('page_number', 1)` only substitutes a default when the key is
absent) — fails again, so the exception escapes `_validate_items` and
aborts the whole list, instead of substituting a minimally valid record as
the code's own comment ("Create minimal valid item if validation fails")
and the spec promise.  The second conjunct shows the only case the
fallback does rescue: a dictionary with no page_number at all. -/
theorem C9_validation_fallback_raises :
    Svc.validate_items [{ page_number := .int 0, fixture_type := some "Valve" }]
      = .error () ∧
    Svc.validate_items [{ fixture_type := some "Valve" }] =
      .ok [{ fixture_type := some "Valve", quantity := .nil,
             model_number := none, dimensions := none, mounting_type := none,
             spec_reference := none, page_number := 1, table_number := none,
             row_number := none, raw_text := none, line_number := none }] :=
  ⟨rfl, rfl⟩

/-- C2 counterexample: the hybrid merger appends an external item that
carries only a page_number (`llm_item.get('page_number') or
llm_item.get('fixture_type')`), reports the enhancement as successful, and
the item validates, so the final output contains an item with none of
fixture_type, model_number, quantity — refuting the claimed
minimum-content invariant for the final output list. -/
theorem C2_counterexample :
    Svc.enhance_with_llm [] (.ok (some [{ page_number := .int 3 }])) =
      ([{ page_number := .int 3 }], true) ∧
    Svc.validate_items [{ page_number := .int 3 }] =
      .ok [{ fixture_type := none, quantity := .nil, model_number := none,
             dimensions := none, mounting_type := none, spec_reference := none,
             page_number := 3, table_number := none, row_number := none,
             raw_text := none, line_number := none }] ∧
    CP.presentB { page_number := .int 3 } = false :=
  ⟨rfl, rfl, rfl⟩

/-- C5 counterexample: the line `PN: L01` yields no item at all — in
particular no model number L01 — because the dominance check of
construction.py line 380 (`len(line.strip().split()) <= 2`) discards a
labeled short code whenever the line has at most two whitespace-separated
tokens, and the claim's asserted extraction fails. -/
theorem C5_counterexample : CP.detect_item_line "PN: L01" = none := by rfl

/-- C10 counterexample: enrichment from a context line can change an
item's page_number after seeding: for the two-line text
`"2 ea VALVE\nsee page 5"` on page 2, the emitted item's page_number is 5
(written by the page-reference spec pattern in `_enrich_item`), not the
`page_num` argument 2. -/
theorem C10_counterexample :
    (CP.extract_items "2 ea VALVE\nsee page 5" 2).map
        (fun it => it.page_number) = [.int 5] := by rfl

/-! helper lemmas for the merge rule -/

theorem mergeOS_of_empty (b e : Option String) (h1 : osTruthy b = false)
    (h2 : osTruthy e = true) : Svc.mergeOS b e = e := by
  simp [Svc.mergeOS, h1, h2]

theorem mergeOS_of_both (b e : Option String) (h1 : osTruthy b = true)
    (h2 : osTruthy e = true) :
    (Svc.osLen b > Svc.osLen e ∧ Svc.mergeOS b e = b) ∨
    (Svc.osLen b ≤ Svc.osLen e ∧ Svc.mergeOS b e = e) := by
  simp only [Svc.mergeOS, h1, h2]
  by_cases h : Svc.osLen b > Svc.osLen e
  · exact Or.inl ⟨h, by simp [h]⟩
  · exact Or.inr ⟨by omega, by simp [h]⟩

theorem mergeQty_of_empty (b e : PVal) (h1 : b.truthy = false)
    (h2 : e.truthy = true) : Svc.mergeQty b e = e := by
  simp [Svc.mergeQty, h1, h2]

theorem mergeQty_of_both (b e : PVal) (h1 : b.truthy = true)
    (h2 : e.truthy = true) :
    (Svc.pvLen b > Svc.pvLen e ∧ Svc.mergeQty b e = b) ∨
    (Svc.pvLen b ≤ Svc.pvLen e ∧ Svc.mergeQty b e = e) := by
  simp only [Svc.mergeQty, h1, h2]
  by_cases h : Svc.pvLen b > Svc.pvLen e
  · exact Or.inl ⟨h, by simp [h]⟩
  · exact Or.inr ⟨by omega, by simp [h]⟩

/-- C6: merging an accepted external item into a regex item works
field-by-field over {fixture_type, quantity, model_number, dimensions,
mounting_type, spec_reference}: the external value is taken when the regex
value is empty (and the external one is present), the longer `str()` wins
when both are present (the external value on ties), and all provenance
fields (page_number, table_number, row_number, line_number, raw_text) are
always the regex item's. -/
theorem C6_merge_field_rule (b e : Item) :
    ((Svc.merge_item_data b e).page_number = b.page_number ∧
     (Svc.merge_item_data b e).table_number = b.table_number ∧
     (Svc.merge_item_data b e).row_number = b.row_number ∧
     (Svc.merge_item_data b e).line_number = b.line_number ∧
     (Svc.merge_item_data b e).raw_text = b.raw_text) ∧
    ((osTruthy b.fixture_type = false → osTruthy e.fixture_type = true →
        (Svc.merge_item_data b e).fixture_type = e.fixture_type) ∧
     (osTruthy b.fixture_type = true → osTruthy e.fixture_type = true →
        (Svc.osLen b.fixture_type > Svc.osLen e.fixture_type ∧
          (Svc.merge_item_data b e).fixture_type = b.fixture_type) ∨
        (Svc.osLen b.fixture_type ≤ Svc.osLen e.fixture_type ∧
          (Svc.merge_item_data b e).fixture_type = e.fixture_type))) ∧
    ((PVal.truthy b.quantity = false → PVal.truthy e.quantity = true →
        (Svc.merge_item_data b e).quantity = e.quantity) ∧
     (PVal.truthy b.quantity = true → PVal.truthy e.quantity = true →
        (Svc.pvLen b.quantity > Svc.pvLen e.quantity ∧
          (Svc.merge_item_data b e).quantity = b.quantity) ∨
        (Svc.pvLen b.quantity ≤ Svc.pvLen e.quantity ∧
          (Svc.merge_item_data b e).quantity = e.quantity))) ∧
    ((osTruthy b.model_number = false → osTruthy e.model_number = true →
        (Svc.merge_item_data b e).model_number = e.model_number) ∧
     (osTruthy b.model_number = true → osTruthy e.model_number = true →
        (Svc.osLen b.model_number > Svc.osLen e.model_number ∧
          (Svc.merge_item_data b e).model_number = b.model_number) ∨
        (Svc.osLen b.model_number ≤ Svc.osLen e.model_number ∧
          (Svc.merge_item_data b e).model_number = e.model_number))) ∧
    ((osTruthy b.dimensions = false → osTruthy e.dimensions = true →
        (Svc.merge_item_data b e).dimensions = e.dimensions) ∧
     (osTruthy b.dimensions = true → osTruthy e.dimensions = true →
        (Svc.osLen b.dimensions > Svc.osLen e.dimensions ∧
          (Svc.merge_item_data b e).dimensions = b.dimensions) ∨
        (Svc.osLen b.dimensions ≤ Svc.osLen e.dimensions ∧
          (Svc.merge_item_data b e).dimensions = e.dimensions))) ∧
    ((osTruthy b.mounting_type = false → osTruthy e.mounting_type = true →
        (Svc.merge_item_data b e).mounting_type = e.mounting_type) ∧
     (osTruthy b.mounting_type = true → osTruthy e.mounting_type = true →
        (Svc.osLen b.mounting_type > Svc.osLen e.mounting_type ∧
          (Svc.merge_item_data b e).mounting_type = b.mounting_type) ∨
        (Svc.osLen b.mounting_type ≤ Svc.osLen e.mounting_type ∧
          (Svc.merge_item_data b e).mounting_type = e.mounting_type))) ∧
    ((osTruthy b.spec_reference = false → osTruthy e.spec_reference = true →
        (Svc.merge_item_data b e).spec_reference = e.spec_reference) ∧
     (osTruthy b.spec_reference = true → osTruthy e.spec_reference = true →
        (Svc.osLen b.spec_reference > Svc.osLen e.spec_reference ∧
          (Svc.merge_item_data b e).spec_reference = b.spec_reference) ∨
        (Svc.osLen b.spec_reference ≤ Svc.osLen e.spec_reference ∧
          (Svc.merge_item_data b e).spec_reference = e.spec_reference))) :=
  ⟨⟨rfl, rfl, rfl, rfl, rfl⟩,
   ⟨fun h1 h2 => mergeOS_of_empty _ _ h1 h2,
    fun h1 h2 => mergeOS_of_both _ _ h1 h2⟩,
   ⟨fun h1 h2 => mergeQty_of_empty _ _ h1 h2,
    fun h1 h2 => mergeQty_of_both _ _ h1 h2⟩,
   ⟨fun h1 h2 => mergeOS_of_empty _ _ h1 h2,
    fun h1 h2 => mergeOS_of_both _ _ h1 h2⟩,
   ⟨fun h1 h2 => mergeOS_of_empty _ _ h1 h2,
    fun h1 h2 => mergeOS_of_both _ _ h1 h2⟩,
   ⟨fun h1 h2 => mergeOS_of_empty _ _ h1 h2,
    fun h1 h2 => mergeOS_of_both _ _ h1 h2⟩,
   ⟨fun h1 h2 => mergeOS_of_empty _ _ h1 h2,
    fun h1 h2 => mergeOS_of_both _ _ h1 h2⟩⟩

/-- C6 witness: at the spec's own example — regex item with fixture_type
"Valve" and no model on page 3, external item with fixture_type "Valve"
and model "VP-100" — the theorem yields model_number "VP-100" and the
retained page_number. -/
theorem C6_merge_field_rule_witness :
    (Svc.merge_item_data
        { fixture_type := some "Valve", page_number := .int 3 }
        { fixture_type := some "Valve", model_number := some "VP-100",
          page_number := .int 3 }).model_number = some "VP-100" ∧
    (Svc.merge_item_data
        { fixture_type := some "Valve", page_number := .int 3 }
        { fixture_type := some "Valve", model_number := some "VP-100",
          page_number := .int 3 }).page_number = .int 3 :=
  ⟨(C6_merge_field_rule
      { fixture_type := some "Valve", page_number := .int 3 }
      { fixture_type := some "Valve", model_number := some "VP-100",
        page_number := .int 3 }).2.2.2.1.1 rfl rfl,
   (C6_merge_field_rule
      { fixture_type := some "Valve", page_number := .int 3 }
      { fixture_type := some "Valve", model_number := some "VP-100",
        page_number := .int 3 }).1.1⟩

/-- the sequential score accumulation of `_find_best_match` equals the
specification's additive scoring table. -/
theorem matchScore_eq_scoreSpec (r l : Item) :
    Svc.matchScore r l = Svc.scoreSpec r l := by
  simp only [Svc.matchScore, Svc.scoreSpec]
  repeat' split
  all_goals omega

/-- invariant of the best-candidate scan: the running maximum dominates
every unused element scanned, never decreases, and the recorded index (if
it changed) points at an unused element achieving the maximum. -/
theorem scanBest_spec (r : Item) (ls : List Item) :
    ∀ (idx : Nat) (used : List Nat) (bs : Nat) (bi : Option Nat),
    (∀ k, k < ls.length → used.contains (idx + k) = false →
       Svc.matchScore r (ls.getD k default) ≤
         (Svc.scanBest r ls idx used (bs, bi)).1) ∧
    bs ≤ (Svc.scanBest r ls idx used (bs, bi)).1 ∧
    (((Svc.scanBest r ls idx used (bs, bi)).2 = bi ∧
      (Svc.scanBest r ls idx used (bs, bi)).1 = bs) ∨
     ∃ k, k < ls.length ∧
       (Svc.scanBest r ls idx used (bs, bi)).2 = some (idx + k) ∧
       used.contains (idx + k) = false ∧
       (Svc.scanBest r ls idx used (bs, bi)).1 =
         Svc.matchScore r (ls.getD k default) ∧
       bs < (Svc.scanBest r ls idx used (bs, bi)).1) := by
  induction ls with
  | nil =>
    intro idx used bs bi
    refine ⟨fun k hk => absurd hk (by simp), ?_, Or.inl ⟨rfl, rfl⟩⟩
    simp [Svc.scanBest]
  | cons l ls ih =>
    intro idx used bs bi
    simp only [Svc.scanBest]
    by_cases hu : used.contains idx = true
    · rw [if_pos hu]
      obtain ⟨h1, h2, h3⟩ := ih (idx + 1) used bs bi
      refine ⟨?_, h2, ?_⟩
      · intro k hk hkU
        match k with
        | 0 =>
          rw [Nat.add_zero] at hkU
          rw [hkU] at hu; cases hu
        | k + 1 =>
          have e : idx + (k + 1) = (idx + 1) + k := by omega
          rw [e] at hkU
          simpa using h1 k (by simpa using hk) hkU
      · rcases h3 with ⟨ha, hb⟩ | ⟨k, hk, ha, hb, hc, hd⟩
        · exact Or.inl ⟨ha, hb⟩
        · refine Or.inr ⟨k + 1, by simpa using hk, ?_, ?_, by simpa using hc, hd⟩
          · rw [ha]; congr 1; omega
          · have e : idx + (k + 1) = (idx + 1) + k := by omega
            rw [e]; exact hb
    · rw [if_neg hu]
      by_cases hgt : Svc.matchScore r l > bs
      · rw [if_pos hgt]
        obtain ⟨h1, h2, h3⟩ := ih (idx + 1) used (Svc.matchScore r l) (some idx)
        refine ⟨?_, by omega, ?_⟩
        · intro k hk hkU
          match k with
          | 0 => simpa using h2
          | k + 1 =>
            have e : idx + (k + 1) = (idx + 1) + k := by omega
            rw [e] at hkU
            simpa using h1 k (by simpa using hk) hkU
        · rcases h3 with ⟨ha, hb⟩ | ⟨k, hk, ha, hb, hc, hd⟩
          · refine Or.inr ⟨0, by simp, ?_, ?_, ?_, ?_⟩
            · rw [ha, Nat.add_zero]
            · rw [Nat.add_zero]; simpa using hu
            · simpa using hb
            · omega
          · refine Or.inr ⟨k + 1, by simpa using hk, ?_, ?_, by simpa using hc, ?_⟩
            · rw [ha]; congr 1; omega
            · have e : idx + (k + 1) = (idx + 1) + k := by omega
              rw [e]; exact hb
            · omega
      · rw [if_neg hgt]
        obtain ⟨h1, h2, h3⟩ := ih (idx + 1) used bs bi
        refine ⟨?_, h2, ?_⟩
        · intro k hk hkU
          match k with
          | 0 => simp only [List.getD_cons_zero]; omega
          | k + 1 =>
            have e : idx + (k + 1) = (idx + 1) + k := by omega
            rw [e] at hkU
            simpa using h1 k (by simpa using hk) hkU
        · rcases h3 with ⟨ha, hb⟩ | ⟨k, hk, ha, hb, hc, hd⟩
          · exact Or.inl ⟨ha, hb⟩
          · refine Or.inr ⟨k + 1, by simpa using hk, ?_, ?_, by simpa using hc, hd⟩
            · rw [ha]; congr 1; omega
            · have e : idx + (k + 1) = (idx + 1) + k := by omega
              rw [e]; exact hb

/-- C7: the candidate search scores every not-yet-used external item per
the claimed table (+10/+5 fixture, +8/+4 model, +3 page, on present
normalized values), selects an unused candidate of maximal score, and
returns no candidate exactly when every unused candidate scores below 3. -/
theorem C7_scoring_and_selection :
    (∀ r l : Item, Svc.matchScore r l = Svc.scoreSpec r l) ∧
    (∀ (r : Item) (llm : List Item) (used : List Nat) (i : Nat),
       Svc.find_best_match r llm used = some i →
       used.contains i = false ∧ i < llm.length ∧
       3 ≤ Svc.matchScore r (llm.getD i default) ∧
       ∀ j, j < llm.length → used.contains j = false →
         Svc.matchScore r (llm.getD j default) ≤
           Svc.matchScore r (llm.getD i default)) ∧
    (∀ (r : Item) (llm : List Item) (used : List Nat),
       Svc.find_best_match r llm used = none →
       ∀ j, j < llm.length → used.contains j = false →
         Svc.matchScore r (llm.getD j default) < 3) := by
  refine ⟨matchScore_eq_scoreSpec, ?_, ?_⟩
  · intro r llm used i h
    simp only [Svc.find_best_match] at h
    obtain ⟨h1, h2, h3⟩ := scanBest_spec r llm 0 used 0 none
    by_cases hge : (Svc.scanBest r llm 0 used (0, none)).1 ≥ 3
    · rw [if_pos hge] at h
      rcases h3 with ⟨ha, _⟩ | ⟨k, hk, ha, hb, hc, _⟩
      · rw [ha] at h; cases h
      · rw [ha] at h
        have hik : i = k := by simpa using h.symm
        subst hik
        have hz : (0 : Nat) + i = i := by omega
        rw [hz] at hb
        refine ⟨hb, hk, ?_, ?_⟩
        · rw [← hc]; exact hge
        · intro j hj hjU
          have := h1 j hj (by simpa using hjU)
          rw [← hc]; simpa using this
    · rw [if_neg hge] at h; cases h
  · intro r llm used h j hj hjU
    simp only [Svc.find_best_match] at h
    obtain ⟨h1, h2, h3⟩ := scanBest_spec r llm 0 used 0 none
    by_cases hge : (Svc.scanBest r llm 0 used (0, none)).1 ≥ 3
    · rw [if_pos hge] at h
      rcases h3 with ⟨_, hb⟩ | ⟨k, _, ha, _, _, _⟩
      · omega
      · rw [ha] at h; cases h
    · have := h1 j hj (by simpa using hjU)
      omega

/-- C7 witness: a concrete selection — one unused external candidate with
an exactly equal fixture_type is selected and scores at least 3. -/
theorem C7_scoring_witness :
    Svc.find_best_match { fixture_type := some "Valve" }
      [{ fixture_type := some "Valve" }] [] = some 0 ∧
    3 ≤ Svc.matchScore { fixture_type := some "Valve" }
      ([({ fixture_type := some "Valve" } : Item)].getD 0 default) :=
  ⟨by rfl,
   (C7_scoring_and_selection.2.1 { fixture_type := some "Valve" }
      [{ fixture_type := some "Valve" }] [] 0 (by rfl)).2.2.1⟩

/-! helper lemmas for the minimum-content invariant -/

theorem or3_swap (a b c : Bool) : (a || b || c) = true → (a || c || b) = true := by
  revert a b c; decide

theorem emitIf_present (cur : Option Item) (acc : List Item)
    (h : ∀ it ∈ acc, CP.presentB it = true) :
    ∀ it ∈ CP.emitIf cur acc, CP.presentB it = true := by
  unfold CP.emitIf
  cases cur with
  | none => exact h
  | some x =>
    dsimp only
    by_cases hx : CP.presentB x = true
    · rw [if_pos hx]
      intro it hit
      rcases List.mem_append.mp hit with h1 | h1
      · exact h it h1
      · rw [List.mem_singleton.mp h1]; exact hx
    · rw [if_neg hx]; exact h

theorem extractGo_present (lines : List String) (page : Int) :
    ∀ (idxs : List Nat) (cur : Option Item) (acc : List Item),
      (∀ it ∈ acc, CP.presentB it = true) →
      ∀ it ∈ CP.extractGo lines page idxs cur acc, CP.presentB it = true := by
  intro idxs
  induction idxs with
  | nil =>
    intro cur acc hacc
    exact emitIf_present cur acc hacc
  | cons i is ih =>
    intro cur acc hacc
    simp only [CP.extractGo]
    split
    · exact ih cur acc hacc
    · split
      · exact ih _ _ (emitIf_present cur acc hacc)
      · split
        · exact ih none acc hacc
        · exact ih _ acc hacc

theorem acceptRow_shape (row : List (Option String)) (itm : Item) :
    ∀ it ∈ CP.acceptRow row itm, CP.presentB it = true ∨
      (it.fixture_type.isSome ∧
       (osTruthy it.dimensions || osTruthy it.mounting_type ||
        osTruthy it.spec_reference) = true) := by
  unfold CP.acceptRow
  split
  · rename_i hg
    intro it hit
    rw [List.mem_singleton.mp hit]
    exact Or.inl (or3_swap _ _ _ hg)
  · split
    · rename_i hg2
      split
      · rename_i c hc
        split
        · intro it hit
          rw [List.mem_singleton.mp hit]
          exact Or.inr ⟨rfl, hg2⟩
        · intro it hit; cases hit
      · intro it hit; cases hit
    · intro it hit; cases hit

theorem mergeOS_truthy (b e : Option String) (h : osTruthy b = true) :
    osTruthy (Svc.mergeOS b e) = true := by
  unfold Svc.mergeOS
  split
  · rename_i hc
    rw [h] at hc
    simp at hc
  · split
    · rename_i hc
      split
      · exact h
      · simp only [Bool.and_eq_true] at hc
        exact hc.2
    · exact h

theorem mergeQty_truthy (b e : PVal) (h : b.truthy = true) :
    (Svc.mergeQty b e).truthy = true := by
  unfold Svc.mergeQty
  split
  · rename_i hc
    rw [h] at hc
    simp at hc
  · split
    · rename_i hc
      split
      · exact h
      · simp only [Bool.and_eq_true] at hc
        exact hc.2
    · exact h

theorem merge_present (r l : Item) (h : CP.presentB r = true) :
    CP.presentB (Svc.merge_item_data r l) = true := by
  unfold CP.presentB at *
  simp only [Bool.or_eq_true] at h ⊢
  rcases h with (hf | hm) | hq
  · exact Or.inl (Or.inl (mergeOS_truthy _ _ hf))
  · exact Or.inl (Or.inr (mergeOS_truthy _ _ hm))
  · exact Or.inr (mergeQty_truthy _ _ hq)

theorem mergeLoop_mem (llm : List Item) :
    ∀ (rs : List Item) (used : List Nat) (acc : List Item) (it : Item),
      it ∈ (Svc.mergeLoop llm rs used acc).2 →
      it ∈ acc ∨ ∃ r ∈ rs, it = r ∨ ∃ l, it = Svc.merge_item_data r l := by
  intro rs
  induction rs with
  | nil =>
    intro used acc it h
    simp only [Svc.mergeLoop] at h
    exact Or.inl h
  | cons r rs ih =>
    intro used acc it h
    simp only [Svc.mergeLoop] at h
    split at h
    · rename_i i hi
      rcases ih _ _ it h with hacc | ⟨r', hr', hs⟩
      · rcases List.mem_append.mp hacc with h1 | h1
        · exact Or.inl h1
        · exact Or.inr ⟨r, List.mem_cons_self r rs,
            Or.inr ⟨llm.getD i default, List.mem_singleton.mp h1⟩⟩
      · exact Or.inr ⟨r', List.mem_cons_of_mem r hr', hs⟩
    · rcases ih _ _ it h with hacc | ⟨r', hr', hs⟩
      · rcases List.mem_append.mp hacc with h1 | h1
        · exact Or.inl h1
        · exact Or.inr ⟨r, List.mem_cons_self r rs,
            Or.inl (List.mem_singleton.mp h1)⟩
      · exact Or.inr ⟨r', List.mem_cons_of_mem r hr', hs⟩

/-- C2 amended: items emitted by the line accumulator always satisfy the
minimum-content invariant (one of fixture_type, model_number, quantity
truthy); table rows satisfy it unless accepted through the first-cell
fallback (which guarantees a fixture_type key plus one of
dimensions/mounting/spec); the hybrid merger preserves the invariant for
every regex-based item but appends external items guaranteed only a
truthy page_number or fixture_type. -/
theorem C2_minimum_content_amended :
    (∀ (text : String) (page : Int), ∀ it ∈ CP.extract_items text page,
       CP.presentB it = true) ∧
    (∀ (tables : List (List (List (Option String)))) (page : Int),
       ∀ it ∈ CP.parse_tables tables page,
       CP.presentB it = true ∨
         (it.fixture_type.isSome ∧
          (osTruthy it.dimensions || osTruthy it.mounting_type ||
           osTruthy it.spec_reference) = true)) ∧
    (∀ (regex llm : List Item), (∀ r ∈ regex, CP.presentB r = true) →
       ∀ it ∈ Svc.merge_regex_and_llm_items regex llm,
       CP.presentB it = true ∨
         (it.page_number.truthy || osTruthy it.fixture_type) = true) := by
  refine ⟨?_, ?_, ?_⟩
  · intro text page it hit
    exact extractGo_present _ page _ none [] (by intro it h; cases h) it hit
  · intro tables page it hit
    unfold CP.parse_tables at hit
    rcases List.mem_flatMap.mp hit with ⟨tp, _, hin⟩
    unfold CP.tableItems at hin
    by_cases hlen : tp.2.length < 2
    · rw [if_pos hlen] at hin; cases hin
    · rw [if_neg hlen] at hin
      rcases List.mem_flatMap.mp hin with ⟨rp, _, hrow⟩
      unfold CP.rowItems at hrow
      exact acceptRow_shape rp.2 _ it hrow
  · intro regex llm hreg it hit
    unfold Svc.merge_regex_and_llm_items at hit
    rcases List.mem_append.mp hit with h1 | h1
    · rcases mergeLoop_mem llm regex [] [] it h1 with hacc | ⟨r, hr, hs⟩
      · cases hacc
      · rcases hs with rfl | ⟨l, rfl⟩
        · exact Or.inl (hreg _ hr)
        · exact Or.inl (merge_present _ _ (hreg _ hr))
    · rcases List.mem_filterMap.mp h1 with ⟨il, _, heq⟩
      split at heq
      · cases heq
      · split at heq
        · rename_i hg
          cases heq
          exact Or.inr hg
        · cases heq

/-- C2 witness: the invariant parts applied at concrete inputs — a
single-line extraction, a fallback-accepted table row, and a merge of one
present regex item with no external items. -/
theorem C2_minimum_content_witness :
    CP.presentB ((CP.extract_items "2 ea VALVE" 1).headD default) = true ∧
    (CP.presentB ((Svc.merge_regex_and_llm_items
        [{ fixture_type := some "Valve", page_number := .int 1 }] []).headD
          default) = true ∨
     (((Svc.merge_regex_and_llm_items
        [{ fixture_type := some "Valve", page_number := .int 1 }] []).headD
          default).page_number.truthy ||
       osTruthy ((Svc.merge_regex_and_llm_items
        [{ fixture_type := some "Valve", page_number := .int 1 }] []).headD
          default).fixture_type) = true) :=
  ⟨C2_minimum_content_amended.1 "2 ea VALVE" 1 _ (by decide),
   C2_minimum_content_amended.2.2
     [{ fixture_type := some "Valve", page_number := .int 1 }] []
     (by decide) _ (by decide)⟩

/-! helper lemmas for the model-label requirement -/

theorem modelGroups_no_label (line : String) (cs : List Char)
    (h : Rx.searchB true CP.modelLbl cs = false) :
    ∀ (gs : List (Option String)) (models : List String),
      CP.modelGroups line cs models gs = models := by
  intro gs
  induction gs with
  | nil => intro models; rfl
  | cons g gs ih =>
    intro models
    simp only [CP.modelGroups]
    cases g with
    | none => exact ih models
    | some g0 =>
      simp only [h, Bool.not_false, if_true]
      repeat' split
      all_goals first | exact ih models | rfl

theorem modelStep_no_label (line : String) (cs : List Char)
    (h : Rx.searchB true CP.modelLbl cs = false) :
    CP.modelStep line cs = [] := by
  unfold CP.modelStep
  have inner : ∀ (ms : List Rx.Mtc) (p : Rx.Pat) (models : List String),
      ms.foldl (fun models m =>
        CP.modelGroups line cs models ((Rx.groups cs m p.ng).reverse)) models
        = models := by
    intro ms
    induction ms with
    | nil => intro p models; rfl
    | cons m ms ih =>
      intro p models
      rw [List.foldl_cons, modelGroups_no_label line cs h]
      exact ih p models
  have outer : ∀ (ps : List Rx.Pat) (models : List String),
      ps.foldl (fun models p =>
        (Rx.findAll true p cs).foldl (fun models m =>
          CP.modelGroups line cs models ((Rx.groups cs m p.ng).reverse)) models)
        models = models := by
    intro ps
    induction ps with
    | nil => intro models; rfl
    | cons p ps ih =>
      intro models
      rw [List.foldl_cons, inner]
      exact ih models
  exact outer CP.model_patterns []

theorem fixtureStep_model (cs : List Char) (dd : DetectData) :
    (CP.fixtureStep cs dd).2.model = dd.model := by
  simp only [CP.fixtureStep]
  repeat' split
  all_goals rfl

theorem qtyOne_model (cs : List Char) (dd : DetectData) (p : Rx.Pat) :
    (CP.qtyOne cs dd p).1.model = dd.model := by
  simp only [CP.qtyOne]
  repeat' split
  all_goals rfl

theorem qtyStep_model (cs : List Char) (dd : DetectData) :
    (CP.qtyStep cs dd).model = dd.model := by
  unfold CP.qtyStep
  have main : ∀ (ps : List Rx.Pat) (st : DetectData × Bool),
      ((ps.foldl (fun st p => if st.2 then st else CP.qtyOne cs st.1 p) st).1).model
        = st.1.model := by
    intro ps
    induction ps with
    | nil => intro st; rfl
    | cons p ps ih =>
      intro st
      simp only [List.foldl_cons]
      split
      · exact ih st
      · rw [ih (CP.qtyOne cs st.1 p)]
        exact qtyOne_model cs st.1 p
  exact main CP.quantity_patterns (dd, false)

theorem dimStep_model (line : String) (cs : List Char) :
    ∀ (ps : List Rx.Pat) (dd : DetectData),
      (CP.dimStep line cs dd ps).model = dd.model := by
  intro ps
  induction ps with
  | nil => intro dd; rfl
  | cons p ps ih =>
    intro dd
    simp only [CP.dimStep]
    repeat' split
    all_goals first | exact ih dd | rfl

theorem mountStep_model (cs : List Char) (dd : DetectData) :
    (CP.mountStep cs dd).model = dd.model := by
  unfold CP.mountStep
  split <;> rfl

theorem specStep_model (cs : List Char) :
    ∀ (ps : List (Rx.Pat × Bool)) (dd : DetectData),
      (CP.specStep cs dd ps).model = dd.model := by
  intro ps
  induction ps with
  | nil => intro dd; rfl
  | cons pp ps ih =>
    intro dd
    simp only [CP.specStep]
    repeat' split
    all_goals first | exact ih dd | exact ih _ | rfl

theorem fallbackType_model (line : String) (dd : DetectData) :
    (CP.fallbackType line dd).model = dd.model := by
  simp only [CP.fallbackType]
  repeat' split
  all_goals rfl

theorem drawSpecSet_model (line : String) (dd : DetectData) :
    (CP.drawSpecSet line dd).model = dd.model := by
  unfold CP.drawSpecSet
  split <;> rfl

theorem drawTypClear_model (line : String) (dd : DetectData) :
    (CP.drawTypClear line dd).model = dd.model := by
  unfold CP.drawTypClear
  split <;> rfl

theorem drawStep_model (line : String) (dd dd2 : DetectData)
    (h : CP.drawStep line dd = some dd2) : dd2.model = dd.model := by
  simp only [CP.drawStep] at h
  split at h
  · split at h
    · cases h
    · injection h with h
      subst h
      rw [drawTypClear_model, drawSpecSet_model]
  · injection h with h
    subst h
    rfl

theorem finishItem_model (line : String) (dd : DetectData) :
    (CP.finishItem line dd).model = dd.model := by
  simp only [CP.finishItem]
  split <;> simp [fallbackType_model]

theorem finishGate_model (line : String) (cs : List Char) (best : Option String)
    (dd dd' : DetectData) (h : CP.finishGate line cs best dd = some dd') :
    dd'.model = dd.model := by
  unfold CP.finishGate at h
  split at h
  · cases h
  · split at h
    · cases h
    · rename_i dd2 heq
      split at h
      · injection h with h
        subst h
        rw [finishItem_model]
        exact drawStep_model line dd dd2 heq
      · cases h

/-- C5 amended: the detector records no model number at all from a line
without a model/part/pn/sku/cat/item# label — in particular unlabeled
"L01" is never extracted; the labeled two-token line "PN: L01" is
nevertheless rejected outright by the dominance rule (at most two
whitespace-separated tokens), and a labeled short code on a longer line is
accepted: "PN: L01 valve" yields model_number "L01". -/
theorem C5_label_required_amended :
    (∀ (line : String), Rx.searchB true CP.modelLbl line.data = false →
       ∀ dd, CP.detect_item_line line = some dd → dd.model = none) ∧
    CP.detect_item_line "PN: L01" = none ∧
    (CP.extract_items "PN: L01 valve" 1).map (fun it => it.model_number) =
      [some "L01"] := by
  refine ⟨?_, by rfl, by rfl⟩
  intro line h dd hdd
  simp only [CP.detect_item_line] at hdd
  split at hdd
  · cases hdd
  · split at hdd
    · cases hdd
    · split at hdd
      · cases hdd
      · split at hdd
        · cases hdd
        · have hne : ¬(([] : List String) ≠ []) := by simp
          rw [modelStep_no_label line line.data h, if_neg hne] at hdd
          have hm := finishGate_model line line.data _ _ dd hdd
          rw [specStep_model, mountStep_model, dimStep_model, qtyStep_model,
            fixtureStep_model] at hm
          exact hm.trans rfl

/-- C5 witness: the no-label half applied at the concrete label-free line
"2 ea VALVE", whose detection succeeds and carries no model number. -/
theorem C5_label_required_witness :
    ((CP.detect_item_line "2 ea VALVE").getD {}).model = none :=
  C5_label_required_amended.1 "2 ea VALVE" (by rfl) _ (by rfl)

/-! helper lemmas for page-number preservation -/

theorem enrichQty_page (it : Item) (cs : List Char) :
    (CP.enrichQty it cs).page_number = it.page_number := by
  simp only [CP.enrichQty]
  repeat' split
  all_goals rfl

theorem enrichModel_page (it : Item) (cs : List Char) :
    (CP.enrichModel it cs).page_number = it.page_number := by
  simp only [CP.enrichModel]
  repeat' split
  all_goals rfl

theorem enrichDims_page (it : Item) (cs : List Char) :
    (CP.enrichDims it cs).page_number = it.page_number := by
  simp only [CP.enrichDims]
  repeat' split
  all_goals rfl

theorem enrichMount_page (it : Item) (cs : List Char) :
    (CP.enrichMount it cs).page_number = it.page_number := by
  simp only [CP.enrichMount]
  repeat' split
  all_goals rfl

theorem enrichSpec_page (it : Item) (line : String)
    (h : CP.pageOverride line = none) :
    (CP.enrichSpec it line.data).page_number = it.page_number := by
  unfold CP.pageOverride at h
  simp only [CP.enrichSpec]
  split
  · rfl
  · rename_i p isPage m heq
    rw [heq] at h
    split
    · rename_i hp
      split
      · rename_i dm hdm
        simp [hp, hdm] at h
      · split <;> rfl
    · split <;> rfl

theorem enrich_item_page (it : Item) (line : String)
    (h : CP.pageOverride line = none) :
    (CP.enrich_item it line).page_number = it.page_number := by
  simp only [CP.enrich_item]
  have h1 : ∀ x : Item, (if !x.quantity.truthy then CP.enrichQty x line.data
      else x).page_number = x.page_number := by
    intro x; split <;> simp [enrichQty_page]
  have h2 : ∀ x : Item, (if !osTruthy x.model_number then
      CP.enrichModel x line.data else x).page_number = x.page_number := by
    intro x; split <;> simp [enrichModel_page]
  have h3 : ∀ x : Item, (if !osTruthy x.dimensions then
      CP.enrichDims x line.data else x).page_number = x.page_number := by
    intro x; split <;> simp [enrichDims_page]
  have h4 : ∀ x : Item, (if !osTruthy x.mounting_type then
      CP.enrichMount x line.data else x).page_number = x.page_number := by
    intro x; split <;> simp [enrichMount_page]
  have h5 : ∀ x : Item, (if !osTruthy x.spec_reference then
      CP.enrichSpec x line.data else x).page_number = x.page_number := by
    intro x; split <;> simp [enrichSpec_page _ _ h]
  rw [h5, h4, h3, h2, h1]

theorem stripGetD_mem (lines : List String) (j : Nat) (h : j < lines.length) :
    PyStr.strip (lines.getD j "") ∈ lines.map PyStr.strip := by
  have h1 : lines.getD j "" ∈ lines := by
    rw [List.getD_eq_getElem lines "" h]
    exact List.getElem_mem h
  exact List.mem_map_of_mem PyStr.strip h1

theorem enrichFold_page (ctx : List String)
    (hctx : ∀ l ∈ ctx, CP.pageOverride l = none) :
    ∀ it : Item, (ctx.foldl (fun it l =>
      if l = "" then it else CP.enrich_item it l) it).page_number =
      it.page_number := by
  induction ctx with
  | nil => intro it; rfl
  | cons l ls ih =>
    intro it
    simp only [List.foldl_cons]
    have hl := hctx l (List.mem_cons_self l ls)
    have ihs := ih (fun x hx => hctx x (List.mem_cons_of_mem l hx))
    rw [ihs]
    split
    · rfl
    · exact enrich_item_page it l hl

theorem emitIf_subset (cur : Option Item) (acc : List Item) :
    ∀ it ∈ CP.emitIf cur acc, it ∈ acc ∨ cur = some it := by
  unfold CP.emitIf
  cases cur with
  | none => exact fun it h => Or.inl h
  | some x =>
    dsimp only
    split
    · intro it hit
      rcases List.mem_append.mp hit with h1 | h1
      · exact Or.inl h1
      · exact Or.inr (by rw [List.mem_singleton.mp h1])
    · exact fun it h => Or.inl h

theorem extractGo_page (lines : List String) (page : Int)
    (hP : ∀ l ∈ lines.map PyStr.strip, CP.pageOverride l = none) :
    ∀ (idxs : List Nat), (∀ i ∈ idxs, i < lines.length) →
    ∀ (cur : Option Item) (acc : List Item),
      (∀ it, cur = some it → it.page_number = .int page) →
      (∀ it ∈ acc, it.page_number = .int page) →
      ∀ it ∈ CP.extractGo lines page idxs cur acc,
        it.page_number = .int page := by
  intro idxs
  induction idxs with
  | nil =>
    intro _ cur acc hcur hacc it hit
    rcases emitIf_subset cur acc it hit with h1 | h1
    · exact hacc it h1
    · exact hcur it h1
  | cons i is ih =>
    intro hbound cur acc hcur hacc
    have hi : i < lines.length := hbound i (List.mem_cons_self i is)
    have hbound' : ∀ j ∈ is, j < lines.length :=
      fun j hj => hbound j (List.mem_cons_of_mem i hj)
    simp only [CP.extractGo]
    split
    · exact ih hbound' cur acc hcur hacc
    · split
      · refine ih hbound' _ _ ?_ ?_
        · intro it hit
          injection hit with hit
          rw [← hit]
        · intro it hit
          rcases emitIf_subset cur acc it hit with h1 | h1
          · exact hacc it h1
          · exact hcur it h1
      · split
        · exact ih hbound' none acc (by intro it hit; cases hit) hacc
        · next _ itC =>
          refine ih hbound' _ acc ?_ hacc
          intro it hit
          injection hit with hit
          rw [← hit]
          have hmid : CP.pageOverride (PyStr.strip (lines.getD i "")) = none :=
            hP _ (stripGetD_mem lines i hi)
          have hprev : ∀ l ∈ (if i > 0 then [PyStr.strip (lines.getD (i - 1) "")]
              else []), CP.pageOverride l = none := by
            split
            · intro l hl
              rw [List.mem_singleton.mp hl]
              exact hP _ (stripGetD_mem lines (i - 1) (by omega))
            · intro l hl; cases hl
          have hnext : ∀ l ∈ (if i + 1 < lines.length then
              [PyStr.strip (lines.getD (i + 1) "")] else []),
              CP.pageOverride l = none := by
            split
            · rename_i hlt
              intro l hl
              rw [List.mem_singleton.mp hl]
              exact hP _ (stripGetD_mem lines (i + 1) hlt)
            · intro l hl; cases hl
          rw [enrichFold_page _ ?_ itC]
          · exact hcur itC rfl
          · intro l hl
            rcases List.mem_append.mp hl with h1 | h1
            · rcases List.mem_append.mp h1 with h2 | h2
              · exact hprev l h2
              · rw [List.mem_singleton.mp h2]
                exact hmid
            · exact hnext l h1

/-- C10 amended: every item returned by `extract_items text page_num` has
`page_number = page_num`, provided no stripped line of the text produces a
page override in enrichment (the first matching spec pattern of
`_enrich_item` is not a page-reference pattern carrying digits); without
that proviso a context line such as "see page 5" rewrites the item's
page_number. -/
theorem C10_page_number_amended (text : String) (page : Int)
    (h : ∀ l ∈ (PyStr.splitNl text).map PyStr.strip,
      CP.pageOverride l = none) :
    ∀ it ∈ CP.extract_items text page, it.page_number = .int page := by
  intro it hit
  unfold CP.extract_items at hit
  refine extractGo_page (PyStr.splitNl text) page h _ ?_ none [] ?_ ?_ it hit
  · intro i hi
    exact List.mem_range.mp hi
  · intro it hit; cases hit
  · intro it hit; cases hit

/-- C10 witness: a two-line text whose second line is enrichment context
but yields no page override keeps the seeded page number 4. -/
theorem C10_page_number_witness :
    ((CP.extract_items "2 ea VALVE\nnothing here" 4).headD default).page_number
      = .int 4 :=
  C10_page_number_amended "2 ea VALVE\nnothing here" 4 (by decide) _ (by decide)
